import Mathlib

/-!
Verification of the stream lifecycle supervisor (`m.py`) of the liveOn
repository, as a shallow embedding in Lean 4.

The Python program keeps several module-level dictionaries keyed by a stable
stream ID (`api_items`, `active_streams`, `stream_cache`,
`stream_start_times`, `stream_rotation_timers`, `restart_timers`,
`server_states`).  We embed those dictionaries as association lists over
`String` keys, the mutating functions of the program as pure state
transformers `SysState → SysState × List Action`, and the side effects that
leave the process (spawning and terminating relay processes, scheduling
timers, sending notifications, writing the cache file, logging) as an
explicit `Action` trace.  External collaborators (the desired-state fetch,
the Facebook provisioning calls, the process spawn) are parameters of the
transformer that models the function which calls them, with `Option`
encoding their failure.
-/

namespace LiveOn

/-! ## Association-list operations, modelling Python dict access -/

/-- Model of `d.get(k)` / `d[k]` lookup on a Python dict embedded as an
association list. -/
def lookupA {α : Type} : List (String × α) → String → Option α
  | [], _ => none
  | (k, v) :: rest, key => if k = key then some v else lookupA rest key

/-- Model of `del d[k]` (and of the no-op when the key is absent). -/
def eraseA {α : Type} : List (String × α) → String → List (String × α)
  | [], _ => []
  | (k, v) :: rest, key =>
      if k = key then eraseA rest key else (k, v) :: eraseA rest key

/-- Model of `d[k] = v`: the binding for `k` is replaced (or added). -/
def insertA {α : Type} (l : List (String × α)) (key : String) (v : α) :
    List (String × α) :=
  (key, v) :: eraseA l key

theorem lookupA_eraseA_self {α : Type} (l : List (String × α)) (key : String) :
    lookupA (eraseA l key) key = none := by
  induction l with
  | nil => rfl
  | cons p rest ih =>
      obtain ⟨k, v⟩ := p
      by_cases h : k = key
      · simp [eraseA, h, ih]
      · simp [eraseA, lookupA, h, ih]

theorem lookupA_eraseA_ne {α : Type} (l : List (String × α)) {k key : String}
    (h : k ≠ key) : lookupA (eraseA l k) key = lookupA l key := by
  induction l with
  | nil => rfl
  | cons p rest ih =>
      obtain ⟨k', v⟩ := p
      by_cases hk : k' = k
      · subst hk
        have hkey : k' ≠ key := h
        simp [eraseA, lookupA, hkey, ih]
      · by_cases hkey : k' = key
        · subst hkey
          simp [eraseA, lookupA, hk]
        · simp [eraseA, lookupA, hk, hkey, ih]

theorem lookupA_eraseA_none {α : Type} (l : List (String × α)) (k : String)
    {key : String} (h : lookupA l key = none) :
    lookupA (eraseA l k) key = none := by
  by_cases hk : k = key
  · subst hk; exact lookupA_eraseA_self l k
  · rw [lookupA_eraseA_ne l hk]; exact h

theorem lookupA_insertA_self {α : Type} (l : List (String × α)) (key : String)
    (v : α) : lookupA (insertA l key v) key = some v := by
  simp [insertA, lookupA]

theorem lookupA_insertA_ne {α : Type} (l : List (String × α)) {k key : String}
    (v : α) (h : k ≠ key) : lookupA (insertA l k v) key = lookupA l key := by
  simp only [insertA, lookupA]
  rw [if_neg h]
  exact lookupA_eraseA_ne l h

theorem mem_of_lookupA {α : Type} :
    ∀ (l : List (String × α)) (key : String) (v : α),
      lookupA l key = some v → (key, v) ∈ l := by
  intro l
  induction l with
  | nil => intro key v h; simp [lookupA] at h
  | cons p rest ih =>
      intro key v h
      obtain ⟨k, w⟩ := p
      by_cases hk : k = key
      · subst hk
        simp [lookupA] at h
        simp [h]
      · simp [lookupA, hk] at h
        exact List.mem_cons_of_mem _ (ih key v h)

theorem lookupA_isSome_of_mem {α : Type} :
    ∀ (l : List (String × α)) (e : String × α), e ∈ l →
      (lookupA l e.1).isSome := by
  intro l
  induction l with
  | nil => intro e h; simp at h
  | cons p rest ih =>
      intro e h
      obtain ⟨k, w⟩ := p
      by_cases hk : k = e.1
      · simp [lookupA, hk]
      · rcases List.mem_cons.mp h with he | he
        · rw [he] at hk; simp at hk
        · simp [lookupA, hk]
          exact ih e he

theorem lookupA_eq_of_mem_nodup {α : Type} :
    ∀ (l : List (String × α)), (l.map Prod.fst).Nodup →
      ∀ (key : String) (v : α), (key, v) ∈ l → lookupA l key = some v := by
  intro l
  induction l with
  | nil => intro _ key v h; simp at h
  | cons p rest ih =>
      intro hnd key v h
      obtain ⟨k, w⟩ := p
      simp only [List.map_cons, List.nodup_cons] at hnd
      rcases List.mem_cons.mp h with he | he
      · obtain ⟨hk, hv⟩ := Prod.mk.injEq .. ▸ he
        simp [lookupA, hk.symm, hv]
      · have hk : k ≠ key := by
          intro hc
          exact hnd.1 (hc ▸ List.mem_map.mpr ⟨(key, v), he, rfl⟩)
        simp [lookupA, hk]
        exact ih hnd.2 key v he

/-! ## MD5, modelling `hashlib.md5` from the Python standard library

`generate_stream_id` in `m.py` derives the stable stream ID from the first
eight hex digits of the MD5 of `name|source`.  `hashlib.md5` is the standard
library, not repository code, so we implement the MD5 algorithm (RFC 1321)
over `Nat` with explicit reduction modulo `2 ^ 32`. -/

/-- `2 ^ 32`, the modulus for 32-bit words. -/
def w32 : Nat := 4294967296

/-- 32-bit addition with wrap-around. -/
def add32 (a b : Nat) : Nat := (a + b) % w32

/-- 32-bit bitwise complement. -/
def not32 (x : Nat) : Nat := Nat.xor x 4294967295

/-- 32-bit left rotation by `c` places (for `x < 2 ^ 32`, `0 < c < 32`). -/
def rotl32 (x c : Nat) : Nat := (x * 2 ^ c + x / 2 ^ (32 - c)) % w32

/-- Round functions F, G, H, I of MD5. -/
def md5F (b c d : Nat) : Nat := Nat.lor (Nat.land b c) (Nat.land (not32 b) d)

def md5G (b c d : Nat) : Nat := Nat.lor (Nat.land d b) (Nat.land (not32 d) c)

def md5H (b c d : Nat) : Nat := Nat.xor b (Nat.xor c d)

def md5I (b c d : Nat) : Nat := Nat.xor c (Nat.lor b (not32 d))

/-- The 64 MD5 round constants `floor(2^32 * abs(sin(i + 1)))`. -/
def md5K : List Nat :=
  [0xd76aa478, 0xe8c7b756, 0x242070db, 0xc1bdceee,
   0xf57c0faf, 0x4787c62a, 0xa8304613, 0xfd469501,
   0x698098d8, 0x8b44f7af, 0xffff5bb1, 0x895cd7be,
   0x6b901122, 0xfd987193, 0xa679438e, 0x49b40821,
   0xf61e2562, 0xc040b340, 0x265e5a51, 0xe9b6c7aa,
   0xd62f105d, 0x02441453, 0xd8a1e681, 0xe7d3fbc8,
   0x21e1cde6, 0xc33707d6, 0xf4d50d87, 0x455a14ed,
   0xa9e3e905, 0xfcefa3f8, 0x676f02d9, 0x8d2a4c8a,
   0xfffa3942, 0x8771f681, 0x6d9d6122, 0xfde5380c,
   0xa4beea44, 0x4bdecfa9, 0xf6bb4b60, 0xbebfbc70,
   0x289b7ec6, 0xeaa127fa, 0xd4ef3085, 0x04881d05,
   0xd9d4d039, 0xe6db99e5, 0x1fa27cf8, 0xc4ac5665,
   0xf4292244, 0x432aff97, 0xab9423a7, 0xfc93a039,
   0x655b59c3, 0x8f0ccc92, 0xffeff47d, 0x85845dd1,
   0x6fa87e4f, 0xfe2ce6e0, 0xa3014314, 0x4e0811a1,
   0xf7537e82, 0xbd3af235, 0x2ad7d2bb, 0xeb86d391]

/-- The 64 MD5 per-round left-rotation amounts. -/
def md5S : List Nat :=
  [7, 12, 17, 22, 7, 12, 17, 22, 7, 12, 17, 22, 7, 12, 17, 22,
   5, 9, 14, 20, 5, 9, 14, 20, 5, 9, 14, 20, 5, 9, 14, 20,
   4, 11, 16, 23, 4, 11, 16, 23, 4, 11, 16, 23, 4, 11, 16, 23,
   6, 10, 15, 21, 6, 10, 15, 21, 6, 10, 15, 21, 6, 10, 15, 21]

/-- Read the 32-bit little-endian word number `g` of a 64-byte block. -/
def getWord (block : List Nat) (g : Nat) : Nat :=
  block.getD (4 * g) 0 + 256 * block.getD (4 * g + 1) 0 +
    65536 * block.getD (4 * g + 2) 0 + 16777216 * block.getD (4 * g + 3) 0

/-- One MD5 round (round index `i`, state `(a, b, c, d)`). -/
def md5Round (block : List Nat) (st : Nat × Nat × Nat × Nat) (i : Nat) :
    Nat × Nat × Nat × Nat :=
  let a := st.1
  let b := st.2.1
  let c := st.2.2.1
  let d := st.2.2.2
  let f :=
    if i < 16 then md5F b c d
    else if i < 32 then md5G b c d
    else if i < 48 then md5H b c d
    else md5I b c d
  let g :=
    if i < 16 then i
    else if i < 32 then (5 * i + 1) % 16
    else if i < 48 then (3 * i + 5) % 16
    else (7 * i) % 16
  let tmp := add32 (add32 (add32 f a) (md5K.getD i 0)) (getWord block g)
  (d, add32 b (rotl32 tmp (md5S.getD i 0)), b, c)

/-- Process one 64-byte block, updating the 128-bit chaining state. -/
def md5ProcessBlock (h : Nat × Nat × Nat × Nat) (block : List Nat) :
    Nat × Nat × Nat × Nat :=
  let r := (List.range 64).foldl (md5Round block) h
  (add32 h.1 r.1, add32 h.2.1 r.2.1, add32 h.2.2.1 r.2.2.1,
   add32 h.2.2.2 r.2.2.2)

/-- The eight little-endian bytes of a 64-bit length field. -/
def lebytes8 (n : Nat) : List Nat :=
  [n % 256, n / 256 % 256, n / 65536 % 256, n / 16777216 % 256,
   n / 4294967296 % 256, n / 1099511627776 % 256,
   n / 281474976710656 % 256, n / 72057594037927936 % 256]

/-- The four little-endian bytes of a 32-bit word. -/
def lebytes4 (n : Nat) : List Nat :=
  [n % 256, n / 256 % 256, n / 65536 % 256, n / 16777216 % 256]

/-- MD5 padding: a 0x80 byte, zeros to 56 mod 64, then the bit length. -/
def md5Pad (msg : List Nat) : List Nat :=
  let len := msg.length
  let zeros := (56 + 64 - (len + 1) % 64) % 64
  msg ++ 128 :: List.replicate zeros 0 ++ lebytes8 (len * 8 % 2 ^ 64)

/-- Split a byte list into 64-byte blocks. -/
def chunks64 (l : List Nat) : List (List Nat) :=
  if h : l = [] then []
  else l.take 64 :: chunks64 (l.drop 64)
termination_by l.length
decreasing_by
  have hl : 0 < l.length := List.length_pos.mpr h
  simp [List.length_drop]
  omega

/-- The MD5 initial chaining state. -/
def md5Init : Nat × Nat × Nat × Nat :=
  (0x67452301, 0xefcdab89, 0x98badcfe, 0x10325476)

/-- The 16-byte MD5 digest of a byte sequence. -/
def md5Digest (msg : List Nat) : List Nat :=
  let h := (chunks64 (md5Pad msg)).foldl md5ProcessBlock md5Init
  lebytes4 h.1 ++ lebytes4 h.2.1 ++ lebytes4 h.2.2.1 ++ lebytes4 h.2.2.2

/-- Lower-case hex digit for a value below 16. -/
def hexDigit (n : Nat) : Char :=
  if n < 10 then Char.ofNat (48 + n) else Char.ofNat (87 + n)

/-- Two-character lower-case hex rendering of a byte. -/
def byteHex (b : Nat) : String :=
  String.mk [hexDigit (b / 16), hexDigit (b % 16)]

/-- Model of `hashlib.md5(bytes).hexdigest()`. -/
def md5Hex (msg : List Nat) : String :=
  String.join ((md5Digest msg).map byteHex)

/-- The UTF-8 bytes of a string, modelling Python `str.encode()`. -/
def strBytes (s : String) : List Nat :=
  s.toUTF8.toList.map (fun b => b.toNat)

/-- ASCII whitespace as recognized by Python `str.strip()` (Python also
strips some Unicode whitespace, which never appears in this development). -/
def pyIsSpace (c : Char) : Bool :=
  c = ' ' || c = '\t' || c = '\n' || c = '\r' || c = '\x0b' || c = '\x0c'

/-- Model of Python `str.strip()`: drop whitespace from both ends. -/
def pyStrip (s : String) : String :=
  String.mk
    (((s.data.dropWhile pyIsSpace).reverse.dropWhile pyIsSpace).reverse)

/-- `generate_stream_id` from `m.py`: stable stream ID from name and source.
Python strips surrounding whitespace from both arguments, joins them with a
bar, and takes the first eight hex digits of the MD5 digest. -/
def generate_stream_id (name source : String) : String :=
  let clean_name := pyStrip name
  let clean_source := pyStrip source
  let combined := clean_name ++ "|" ++ clean_source
  "stream_" ++ (md5Hex (strBytes combined)).take 8

/-! ## Data model -/

/-- The global `system_state` variable of `m.py`: the string `"running"`
until shutdown begins, then `"stopping"`. -/
inductive SystemState where
  | running
  | stopping
deriving DecidableEq

/-- The per-stream state strings stored in `server_states`. -/
inductive ServerState where
  | starting
  | running
  | restarting
  | rotating
  | failed
deriving DecidableEq

/-- The `StreamItem` dataclass of `m.py`. -/
structure StreamItem where
  id : String
  name : String
  token : String
  source : String
deriving DecidableEq

/-- The `StreamCache` dataclass of `m.py` (one credential record). -/
structure StreamCache where
  liveId : String
  stream_url : String
  dash : String
  status : String
deriving DecidableEq

/-- The module-level mutable state of `m.py`.  Each Python dict keyed by
stream ID becomes an association list; a `subprocess.Popen` handle is
abstracted to its pid (`Nat`); the values stored in the two timer maps are
the scheduled delays in seconds (the program itself only ever cancels a
stored timer or replaces it, never reads it back). -/
structure SysState where
  system_state : SystemState
  api_items : List (String × StreamItem)
  active_streams : List (String × Nat)
  stream_cache : List (String × StreamCache)
  stream_start_times : List (String × Nat)
  stream_rotation_timers : List (String × Nat)
  restart_timers : List (String × Nat)
  server_states : List (String × ServerState)
deriving DecidableEq

/-- The observable side effects of the Python functions: process control,
timer scheduling and cancellation, Telegram messages (`tg`), cache file
writes (`save_cache`), and log lines.  Delays in the schedule actions are in
seconds, mirroring the `threading.Timer(delay_ms / 1000, ...)` calls. -/
inductive Action where
  | logMsg (msg : String)
  | notify (msg : String)
  | spawnProcess (sid : String)
  | terminateProcess (sid : String)
  | cancelTimer (sid : String)
  | scheduleRestart (sid : String) (delaySec : Nat)
  | scheduleRotation (sid : String) (delaySec : Nat)
  | scheduleStart (sid : String) (delaySec : Nat)
  | saveCache
deriving DecidableEq

/-! ## Configuration constants (the `CONFIG` dict, values in milliseconds) -/

def CONFIG_pollInterval : Nat := 20000

def CONFIG_initialDelay : Nat := 110000

def CONFIG_newServerDelay : Nat := 30000

def CONFIG_crashedServerDelay : Nat := 120000

def CONFIG_rotationIntervalMs : Nat := 13500000

/-! ## Uptime formatting -/

/-- `format_uptime` from `m.py`.  The Python float comparison
`uptime_ms <= 0` becomes `= 0` on `Nat`. -/
def format_uptime (uptime_ms : Nat) : String :=
  if uptime_ms = 0 then "Not active"
  else
    let seconds := uptime_ms / 1000 % 60
    let minutes := uptime_ms / 60000 % 60
    let hours := uptime_ms / 3600000 % 24
    let days := uptime_ms / 86400000
    let parts : List String :=
      (if 0 < days then [toString days ++ "d"] else []) ++
      (if 0 < hours then [toString hours ++ "h"] else []) ++
      (if 0 < minutes then [toString minutes ++ "m"] else [])
    let parts :=
      if 0 < seconds ∨ parts = [] then parts ++ [toString seconds ++ "s"]
      else parts
    String.intercalate " " parts

/-! ## Process lifecycle functions

Each Python function that mutates the module-level dicts becomes a pure
transformer `... → SysState → SysState × List Action`.  `now` is the current
wall-clock time in seconds (`time.time()`). -/

/-- `stop_ffmpeg` from `m.py`.  If no live process entry exists for the ID,
the whole body is skipped.  Otherwise the process is terminated (the
SIGTERM/`wait(timeout=5)`/SIGKILL escalation is abstracted into the single
`terminateProcess` action), a stop line is logged when reporting is enabled
and the stream was `running`, and the ID is deleted from `active_streams`
and `stream_start_times`. -/
def stop_ffmpeg (stream_id : String) (skip_report : Bool) (now : Nat)
    (s : SysState) : SysState × List Action :=
  match lookupA s.active_streams stream_id with
  | none => (s, [])
  | some _pid =>
      let reportActs : List Action :=
        if skip_report then []
        else
          match lookupA s.server_states stream_id with
          | some ServerState.running =>
              match lookupA s.api_items stream_id with
              | some item =>
                  let uptime :=
                    match lookupA s.stream_start_times stream_id with
                    | some t => format_uptime ((now - t) * 1000)
                    | none => "Unknown"
                  [Action.logMsg ("Stopped " ++ item.name ++ " (ID: " ++
                    stream_id ++ ") - was running for " ++ uptime)]
              | none => []
          | _ => []
      ({ s with
          active_streams := eraseA s.active_streams stream_id,
          stream_start_times := eraseA s.stream_start_times stream_id },
       Action.terminateProcess stream_id :: reportActs)

/-- `handle_stream_crash` from `m.py`.  A crash observed while the stream is
`rotating` is swallowed with only a log line.  Otherwise one Telegram crash
report is sent, the state becomes `restarting`, the process is stopped with
reporting skipped, and a restart timer for the crashed-server delay is
created and stored. -/
def handle_stream_crash (item : StreamItem) (reason : String) (now : Nat)
    (s : SysState) : SysState × List Action :=
  if lookupA s.server_states item.id = some ServerState.rotating then
    (s, [Action.logMsg (item.name ++
      " crashed during rotation, will continue rotation process")])
  else
    let uptime :=
      match lookupA s.stream_start_times item.id with
      | some t => format_uptime ((now - t) * 1000)
      | none => "Unknown"
    let report := Action.notify ("SERVER CRASH REPORT: " ++ item.name ++
      " ID: " ++ item.id ++ " Reason: " ++ reason ++ " Uptime: " ++ uptime ++
      " Status: Will restart in 2 minutes")
    let s1 : SysState :=
      { s with server_states :=
          insertA s.server_states item.id ServerState.restarting }
    let stopped := stop_ffmpeg item.id true now s1
    let s1b : SysState := stopped.1
    let newTimers :=
      insertA s1b.restart_timers item.id (CONFIG_crashedServerDelay / 1000)
    let s2 : SysState := { s1b with restart_timers := newTimers }
    (s2,
     report ::
       Action.logMsg (item.name ++ " will restart in 2 minutes") ::
       stopped.2 ++
       [Action.scheduleRestart item.id (CONFIG_crashedServerDelay / 1000)])

/-- `monitor_ffmpeg_process` from `m.py`, at the moment the monitored
process exits with `return_code` and captured `stderr`: both the nonzero and
the zero exit-code branch call `handle_stream_crash`, only the reason text
differs. -/
def monitor_ffmpeg_process (item : StreamItem) (return_code : Int)
    (stderr : String) (now : Nat) (s : SysState) : SysState × List Action :=
  if return_code ≠ 0 then
    let r := handle_stream_crash item
      ("FFmpeg exited with code " ++ toString return_code) now s
    (r.1, Action.logMsg ("FFmpeg ended with error for " ++ item.name ++
      ": " ++ stderr.take 100) :: r.2)
  else
    let r := handle_stream_crash item "Stream ended unexpectedly" now s
    (r.1, Action.logMsg ("FFmpeg ended normally for " ++ item.name) :: r.2)

/-- `start_rotation_timer` from `m.py`: cancel any existing rotation timer
for the stream, then create and store a new one for the rotation interval. -/
def start_rotation_timer (item : StreamItem) (s : SysState) :
    SysState × List Action :=
  let cancelled :=
    match lookupA s.stream_rotation_timers item.id with
    | some _ =>
        ({ s with stream_rotation_timers :=
            eraseA s.stream_rotation_timers item.id },
         [Action.cancelTimer item.id])
    | none => (s, ([] : List Action))
  let sc : SysState := cancelled.1
  let newTimers :=
    insertA sc.stream_rotation_timers item.id (CONFIG_rotationIntervalMs / 1000)
  ({ sc with stream_rotation_timers := newTimers },
   cancelled.2 ++
     [Action.logMsg ("Rotation timer started for " ++ item.name),
      Action.scheduleRotation item.id (CONFIG_rotationIntervalMs / 1000)])

/-- `start_ffmpeg` from `m.py`.  Returns untouched if the stream has no
credential record in `stream_cache`, or if its state is already `starting`
or `restarting` (the re-entrancy guard).  Otherwise the state is set to
`starting`, any pending restart timer is cancelled and removed, and the
relay process is spawned; `spawnResult` models the outcome of
`subprocess.Popen` (`some pid` on success, `none` when it raises).  On
success the process handle and start time are recorded, the state becomes
`running`, and the rotation timer is armed; on failure the exception handler
routes into `handle_stream_crash`. -/
def start_ffmpeg (item : StreamItem) (spawnResult : Option Nat) (now : Nat)
    (s : SysState) : SysState × List Action :=
  match lookupA s.stream_cache item.id with
  | none => (s, [Action.logMsg ("No cache for " ++ item.name ++
      ", cannot start")])
  | some _cache =>
      if lookupA s.server_states item.id = some ServerState.starting ∨
         lookupA s.server_states item.id = some ServerState.restarting then
        (s, [Action.logMsg (item.name ++
          " is already starting/restarting, skipping")])
      else
        let s1 : SysState :=
          { s with server_states :=
              insertA s.server_states item.id ServerState.starting }
        let afterCancel :=
          match lookupA s1.restart_timers item.id with
          | some _ =>
              ({ s1 with restart_timers := eraseA s1.restart_timers item.id },
               [Action.cancelTimer item.id])
          | none => (s1, ([] : List Action))
        let s2 : SysState := afterCancel.1
        match spawnResult with
        | some pid =>
            let s3 : SysState :=
              { s2 with
                  active_streams :=
                    insertA s2.active_streams item.id pid,
                  stream_start_times :=
                    insertA s2.stream_start_times item.id now,
                  server_states :=
                    insertA s2.server_states item.id
                      ServerState.running }
            let rot := start_rotation_timer item s3
            (rot.1,
             Action.logMsg ("STARTING " ++ item.name ++ " (ID: " ++
               item.id ++ ")") ::
               afterCancel.2 ++
               Action.spawnProcess item.id ::
               Action.logMsg ("FFmpeg started for " ++ item.name) ::
               rot.2)
        | none =>
            let crashed := handle_stream_crash item "spawn error" now s2
            (crashed.1,
             Action.logMsg ("STARTING " ++ item.name ++ " (ID: " ++
               item.id ++ ")") ::
               afterCancel.2 ++
               Action.logMsg ("Error starting FFmpeg for " ++ item.name) ::
               crashed.2)

/-- `restart_stream` from `m.py`: the callback of the crash-restart timer.
It launches `start_ffmpeg` only while the system is running and the stream
state is still `restarting`. -/
def restart_stream (item : StreamItem) (spawnResult : Option Nat) (now : Nat)
    (s : SysState) : SysState × List Action :=
  if s.system_state = SystemState.running ∧
     lookupA s.server_states item.id = some ServerState.restarting then
    let r := start_ffmpeg item spawnResult now s
    (r.1, Action.logMsg ("Attempting restart " ++ item.name ++ " (ID: " ++
      item.id ++ ")") :: r.2)
  else (s, [])

/-- `start_new_server` from `m.py`: the callback of the new-server delay
timer created by the watcher.  It launches only while the system is running
and the stream state is still `starting`. -/
def start_new_server (stream_id : String) (item : StreamItem)
    (spawnResult : Option Nat) (now : Nat) (s : SysState) :
    SysState × List Action :=
  if s.system_state = SystemState.running ∧
     lookupA s.server_states stream_id = some ServerState.starting then
    let r := start_ffmpeg item spawnResult now s
    (r.1, Action.logMsg ("Starting NEW server: " ++ item.name ++ " (ID: " ++
      stream_id ++ ")") :: r.2)
  else (s, [])

/-- `start_ffmpeg_after_rotation` from `m.py`: the callback of the
post-rotation delay timer.  It launches only while the system is running and
the stream state is still `starting`. -/
def start_ffmpeg_after_rotation (item : StreamItem) (spawnResult : Option Nat)
    (now : Nat) (s : SysState) : SysState × List Action :=
  if s.system_state = SystemState.running ∧
     lookupA s.server_states item.id = some ServerState.starting then
    start_ffmpeg item spawnResult now s
  else (s, [])

/-! ## Desired-state fetch and the reconciliation loop (`watcher`) -/

/-- One raw descriptor from the desired-state API response, i.e. one entry
of `data` in the JSON body.  The fields are optional because the Python code
reads them with `s.get("name", "Unnamed Stream")`, `s.get("source", "")` and
`s.get("token", "")`. -/
structure RawStream where
  name : Option String
  source : Option String
  token : Option String
deriving DecidableEq

/-- The construction of one `items` entry in `fetch_api_list`: strip the
fields, derive the stable ID, build the `StreamItem`. -/
def rawToEntry (r : RawStream) : String × StreamItem :=
  let clean_name := pyStrip (r.name.getD "Unnamed Stream")
  let clean_source := pyStrip (r.source.getD "")
  let clean_token := pyStrip (r.token.getD "")
  let stream_id := generate_stream_id clean_name clean_source
  (stream_id,
   { id := stream_id, name := clean_name, token := clean_token,
     source := clean_source })

/-- The `items` dict built by a successful `fetch_api_list` from the raw
descriptor list (later entries overwrite earlier ones with the same ID, as
in a Python dict). -/
def fetchItems (raws : List RawStream) : List (String × StreamItem) :=
  raws.foldl (fun acc r => insertA acc (rawToEntry r).1 (rawToEntry r).2) []

/-- Sequential processing of a list of work items, threading the state and
concatenating the emitted actions: the shape of the two `for` loops inside
`watcher`. -/
def foldSteps {β : Type} (step : SysState → β → SysState × List Action) :
    SysState → List β → SysState × List Action
  | s, [] => (s, [])
  | s, x :: xs =>
      ((foldSteps step (step s x).1 xs).1,
       (step s x).2 ++ (foldSteps step (step s x).1 xs).2)

/-- The body of the new-items loop of `watcher` for one entry of the fetched
list.  `prov` models the synchronous `create_live` plus
`get_stream_and_dash` provisioning call (`none` when it raises).  An ID that
is already tracked in `api_items` is skipped.  On provisioning success the
credential is cached, the cache file is saved, the state is set to
`starting` and a `start_new_server` timer for the new-server delay is
created (this timer is not stored in any timer map by the Python code).  On
provisioning failure only log lines are emitted.  The loop never modifies
`api_items` itself. -/
def addStep (prov : StreamItem → Option StreamCache) (st : SysState)
    (e : String × StreamItem) : SysState × List Action :=
  if (lookupA st.api_items e.1).isSome then (st, [])
  else
    let detect := Action.logMsg ("NEW SERVER DETECTED: " ++ e.2.name ++
      " (ID: " ++ e.1 ++ ")")
    match prov e.2 with
    | some preview =>
        ({ st with
            stream_cache := insertA st.stream_cache e.1 preview,
            server_states := insertA st.server_states e.1
              ServerState.starting },
         [detect, Action.saveCache,
          Action.logMsg ("New server " ++ e.2.name ++ " (ID: " ++ e.1 ++
            ") will start in 30 seconds"),
          Action.scheduleStart e.1 (CONFIG_newServerDelay / 1000)])
    | none =>
        (st, [detect, Action.logMsg ("Error creating live for " ++
          e.2.name ++ " (ID: " ++ e.1 ++ ")")])

/-- The body of the removed-items loop of `watcher` for one removed ID:
cancel and delete the restart timer and the rotation timer if present, stop
the process with reporting skipped, delete the credential-cache entry, the
start time and the state entry, and save the cache file. -/
def removeOne (now : Nat) (st : SysState) (sid : String) :
    SysState × List Action :=
  let oldName :=
    match lookupA st.api_items sid with
    | some it => it.name
    | none => ""
  let removedLog := Action.logMsg ("REMOVED ITEM: " ++ oldName ++
    " (ID: " ++ sid ++ ")")
  let afterRestart :=
    match lookupA st.restart_timers sid with
    | some _ =>
        ({ st with restart_timers := eraseA st.restart_timers sid },
         [Action.cancelTimer sid])
    | none => (st, ([] : List Action))
  let s1 : SysState := afterRestart.1
  let afterRot :=
    match lookupA s1.stream_rotation_timers sid with
    | some _ =>
        ({ s1 with stream_rotation_timers := eraseA s1.stream_rotation_timers sid },
         [Action.cancelTimer sid])
    | none => (s1, ([] : List Action))
  let stopped := stop_ffmpeg sid true now afterRot.1
  let s3 : SysState := stopped.1
  let s4 : SysState :=
    { s3 with
        stream_cache := eraseA s3.stream_cache sid,
        stream_start_times := eraseA s3.stream_start_times sid,
        server_states := eraseA s3.server_states sid }
  (s4, removedLog :: afterRestart.2 ++ afterRot.2 ++ stopped.2 ++
    [Action.saveCache])

/-- The removed-items loop guard of `watcher`: IDs still present in the new
list are left alone. -/
def remStep (new_list : List (String × StreamItem)) (now : Nat)
    (st : SysState) (e : String × StreamItem) : SysState × List Action :=
  if (lookupA new_list e.1).isSome then (st, []) else removeOne now st e.1

/-- One `watcher` cycle from `m.py`.  `fetchResult` models the outcome of
the HTTP fetch inside `fetch_api_list` (`none` when it raises, in which case
`fetch_api_list` executes `return api_items`).

The final `api_items.clear(); api_items.update(new_list)` step needs care:
on a successful fetch `new_list` is a freshly built dict, so `api_items`
ends up equal to the fetched list; on a failed fetch, however, `new_list`
is the very same dict object as the global `api_items` (aliasing through
`return api_items`), so `clear()` empties both names and the subsequent
`update(new_list)` copies from the now-empty dict — the tracked list ends
up empty. -/
def watcher (fetchResult : Option (List (String × StreamItem)))
    (prov : StreamItem → Option StreamCache) (now : Nat) (s : SysState) :
    SysState × List Action :=
  let new_list := fetchResult.getD s.api_items
  let added := foldSteps (addStep prov) s new_list
  let s1 : SysState := added.1
  let removed := foldSteps (remStep new_list now) s1 s1.api_items
  let s2 : SysState := removed.1
  let finalItems :=
    match fetchResult with
    | some l => l
    | none => []
  ({ s2 with api_items := finalItems }, added.2 ++ removed.2)

/-! ## The credential cache file loader (`load_cache`) -/

/-- JSON values, for modelling the parsed content of the cache file. -/
inductive Json where
  | null
  | bool (b : Bool)
  | num (n : Int)
  | str (s : String)
  | arr (xs : List Json)
  | obj (fields : List (String × Json))

/-- Python truthiness of a parsed JSON value, for the
`if not json_data: return` check in `load_cache`. -/
def Json.falsy : Json → Bool
  | Json.null => true
  | Json.bool b => !b
  | Json.num n => n = 0
  | Json.str s => s = ""
  | Json.arr xs => xs.isEmpty
  | Json.obj fields => fields.isEmpty

/-- Lossy rendering of a JSON value as a string.  The Python dataclass
`StreamCache(**v)` performs no type validation and stores whatever JSON
values the file held; our `StreamCache` has `String` fields, so non-string
values are rendered.  No claim inspects the loaded values, only which keys
decode. -/
def jstr : Json → String
  | Json.null => "None"
  | Json.bool true => "True"
  | Json.bool false => "False"
  | Json.num n => toString n
  | Json.str s => s
  | Json.arr _ => "<list>"
  | Json.obj _ => "<dict>"

/-- The keyword names accepted by `StreamCache(**v)`. -/
def validCacheKeys : List String := ["liveId", "stream_url", "dash", "status"]

/-- Model of `StreamCache(**v)`: succeeds exactly when `v` is an object
whose keys are all dataclass field names and which provides the three
required fields (`status` defaults to `"UNKNOWN"`); on an unexpected or
missing keyword Python raises `TypeError`, modelled as `none`. -/
def decodeStreamCache (v : Json) : Option StreamCache :=
  match v with
  | Json.obj fields =>
      let keys := fields.map Prod.fst
      if keys.all (fun k => validCacheKeys.contains k) &&
         keys.contains "liveId" && keys.contains "stream_url" &&
         keys.contains "dash" then
        some
          { liveId := jstr ((lookupA fields "liveId").getD Json.null),
            stream_url := jstr ((lookupA fields "stream_url").getD Json.null),
            dash := jstr ((lookupA fields "dash").getD Json.null),
            status :=
              match lookupA fields "status" with
              | some j => jstr j
              | none => "UNKNOWN" }
      else none
  | _ => none

/-- Decode every entry of the top-level object; any failure fails the whole
load (the Python loop raises mid-way and the handler then runs
`stream_cache.clear()`, so partially inserted entries are discarded). -/
def decodeAllEntries : List (String × Json) →
    Option (List (String × StreamCache))
  | [] => some []
  | (k, v) :: rest =>
      match decodeStreamCache v, decodeAllEntries rest with
      | some c, some cs => some ((k, c) :: cs)
      | _, _ => none

/-- `load_cache` from `m.py`, as a function from the cache file content to
the resulting in-memory `stream_cache` (empty at boot).  `file` is `none`
when the file does not exist.  `parse` models `json.loads` (`none` when it
raises).  Every failure path — missing file, empty file, parse error, falsy
top level, a non-dict top level (whose `.items()` raises), or an entry that
`StreamCache(**v)` rejects — yields the empty cache; no path raises out of
the loader. -/
def load_cache (file : Option String) (parse : String → Option Json) :
    List (String × StreamCache) :=
  match file with
  | none => []
  | some data =>
      if data = "" ∨ data.trim = "" then []
      else
        match parse data with
        | none => []
        | some json_data =>
            if Json.falsy json_data then []
            else
              match json_data with
              | Json.obj fields =>
                  match decodeAllEntries fields with
                  | some entries => entries
                  | none => []
              | _ => []

/-! ## Predicates used by the claim statements -/

/-- Is an action a Telegram notification (`tg` call)? -/
def isNotify : Action → Bool
  | Action.notify _ => true
  | _ => false

/-- Is an action the creation of a crash-restart timer? -/
def isRestartSched : Action → Bool
  | Action.scheduleRestart _ _ => true
  | _ => false

/-- Is an action the spawn of a relay process? -/
def isSpawn : Action → Bool
  | Action.spawnProcess _ => true
  | _ => false

/-- Number of Telegram notifications in a trace. -/
def countNotify (l : List Action) : Nat := l.countP isNotify

/-- Number of restart-timer creations in a trace. -/
def countRestartSched (l : List Action) : Nat := l.countP isRestartSched

/-- Number of process spawns in a trace. -/
def countSpawn (l : List Action) : Nat := l.countP isSpawn

/-- No resource keyed by `sid` remains in any per-stream map (process
handle, start time, credential record, state entry, restart timer, rotation
timer). -/
abbrev noTrace (sid : String) (s : SysState) : Prop :=
  lookupA s.active_streams sid = none ∧
  lookupA s.stream_start_times sid = none ∧
  lookupA s.stream_cache sid = none ∧
  lookupA s.server_states sid = none ∧
  lookupA s.restart_timers sid = none ∧
  lookupA s.stream_rotation_timers sid = none

/-! ## Concrete fixtures used by witnesses and counterexamples -/

/-- A sample stream item. -/
def item0 : StreamItem :=
  { id := "i", name := "n", token := "t", source := "src" }

/-- A sample credential record. -/
def cache0 : StreamCache :=
  { liveId := "L", stream_url := "u", dash := "d", status := "S" }

/-- A state in which stream `"i"` is fully live and `running`. -/
def sRun0 : SysState :=
  { system_state := SystemState.running,
    api_items := [("i", item0)],
    active_streams := [("i", 44)],
    stream_cache := [("i", cache0)],
    stream_start_times := [("i", 2)],
    stream_rotation_timers := [("i", 13500)],
    restart_timers := [],
    server_states := [("i", ServerState.running)] }

/-- A state in which stream `"i"` is mid-rotation. -/
def sRot0 : SysState :=
  { sRun0 with server_states := [("i", ServerState.rotating)] }

/-- A state in which stream `"i"` is `restarting` with a pending restart
timer and a cached credential: exactly the situation in which the crash
delay elapses and `restart_stream` fires. -/
def sRestarting0 : SysState :=
  { system_state := SystemState.running,
    api_items := [("i", item0)],
    active_streams := [],
    stream_cache := [("i", cache0)],
    stream_start_times := [],
    stream_rotation_timers := [],
    restart_timers := [("i", 120)],
    server_states := [("i", ServerState.restarting)] }

/-- An entirely empty tracked state (fresh boot, nothing tracked). -/
def sEmpty0 : SysState :=
  { system_state := SystemState.running,
    api_items := [],
    active_streams := [],
    stream_cache := [],
    stream_start_times := [],
    stream_rotation_timers := [],
    restart_timers := [],
    server_states := [] }

/-- A state after shutdown has begun. -/
def sStopping0 : SysState :=
  { sRestarting0 with system_state := SystemState.stopping }

/-- A state holding a start-time entry for `"i"` but no live process. -/
def sOrphanStart0 : SysState :=
  { sEmpty0 with stream_start_times := [("i", 3)] }

/-- A single-entry desired list containing stream `"i"`. -/
def nl0 : List (String × StreamItem) := [("i", item0)]

/-- A single-descriptor raw API response. -/
def ds0 : List RawStream :=
  [{ name := some " My Stream ", source := some "rtmp://example/a",
     token := some "tok" }]

/-- A state whose tracked list is exactly the fetch of `ds0`. -/
def sFetched0 : SysState :=
  { sEmpty0 with api_items := fetchItems ds0 }

/-- A provisioning collaborator that always fails. -/
def provFail : StreamItem → Option StreamCache := fun _ => none

/-- A provisioning collaborator that always succeeds with `cache0`. -/
def provOk : StreamItem → Option StreamCache := fun _ => some cache0

/-- A `json.loads` model that always raises. -/
def parseFail : String → Option Json := fun _ => none

/-- A `json.loads` model that parses everything as the nonempty (truthy)
JSON array `[1]` — a non-dict top level on which Python `.items()` raises. -/
def parseArr : String → Option Json := fun _ => some (Json.arr [Json.num 1])

/-! ## Helper lemmas about `stop_ffmpeg` -/

theorem stop_ffmpeg_fst (sid : String) (skip : Bool) (now : Nat)
    (s : SysState) :
    (stop_ffmpeg sid skip now s).1 =
      match lookupA s.active_streams sid with
      | some _ =>
          { s with
              active_streams := eraseA s.active_streams sid,
              stream_start_times := eraseA s.stream_start_times sid }
      | none => s := by
  unfold stop_ffmpeg
  cases lookupA s.active_streams sid <;> rfl

theorem stop_ffmpeg_api (sid : String) (skip : Bool) (now : Nat)
    (s : SysState) :
    (stop_ffmpeg sid skip now s).1.api_items = s.api_items := by
  rw [stop_ffmpeg_fst]
  cases lookupA s.active_streams sid <;> rfl

theorem stop_ffmpeg_cache (sid : String) (skip : Bool) (now : Nat)
    (s : SysState) :
    (stop_ffmpeg sid skip now s).1.stream_cache = s.stream_cache := by
  rw [stop_ffmpeg_fst]
  cases lookupA s.active_streams sid <;> rfl

theorem stop_ffmpeg_states (sid : String) (skip : Bool) (now : Nat)
    (s : SysState) :
    (stop_ffmpeg sid skip now s).1.server_states = s.server_states := by
  rw [stop_ffmpeg_fst]
  cases lookupA s.active_streams sid <;> rfl

theorem stop_ffmpeg_restartT (sid : String) (skip : Bool) (now : Nat)
    (s : SysState) :
    (stop_ffmpeg sid skip now s).1.restart_timers = s.restart_timers := by
  rw [stop_ffmpeg_fst]
  cases lookupA s.active_streams sid <;> rfl

theorem stop_ffmpeg_rotT (sid : String) (skip : Bool) (now : Nat)
    (s : SysState) :
    (stop_ffmpeg sid skip now s).1.stream_rotation_timers =
      s.stream_rotation_timers := by
  rw [stop_ffmpeg_fst]
  cases lookupA s.active_streams sid <;> rfl

theorem stop_ffmpeg_sysState (sid : String) (skip : Bool) (now : Nat)
    (s : SysState) :
    (stop_ffmpeg sid skip now s).1.system_state = s.system_state := by
  rw [stop_ffmpeg_fst]
  cases lookupA s.active_streams sid <;> rfl

theorem stop_ffmpeg_active_self (sid : String) (skip : Bool) (now : Nat)
    (s : SysState) :
    lookupA (stop_ffmpeg sid skip now s).1.active_streams sid = none := by
  rw [stop_ffmpeg_fst]
  cases h : lookupA s.active_streams sid
  · exact h
  · exact lookupA_eraseA_self s.active_streams sid

theorem stop_ffmpeg_active_none (sid key : String) (skip : Bool) (now : Nat)
    (s : SysState) (h : lookupA s.active_streams key = none) :
    lookupA (stop_ffmpeg sid skip now s).1.active_streams key = none := by
  rw [stop_ffmpeg_fst]
  cases lookupA s.active_streams sid
  · exact h
  · exact lookupA_eraseA_none s.active_streams sid h

theorem stop_ffmpeg_start_none (sid key : String) (skip : Bool) (now : Nat)
    (s : SysState) (h : lookupA s.stream_start_times key = none) :
    lookupA (stop_ffmpeg sid skip now s).1.stream_start_times key = none := by
  rw [stop_ffmpeg_fst]
  cases lookupA s.active_streams sid
  · exact h
  · exact lookupA_eraseA_none s.stream_start_times sid h

theorem stop_ffmpeg_start_self (sid : String) (skip : Bool) (now : Nat)
    (s : SysState) (h : (lookupA s.active_streams sid).isSome) :
    lookupA (stop_ffmpeg sid skip now s).1.stream_start_times sid = none := by
  rw [stop_ffmpeg_fst]
  cases hl : lookupA s.active_streams sid
  · rw [hl] at h; simp at h
  · exact lookupA_eraseA_self s.stream_start_times sid

theorem stop_ffmpeg_noop (sid : String) (skip : Bool) (now : Nat)
    (s : SysState) (h : lookupA s.active_streams sid = none) :
    stop_ffmpeg sid skip now s = (s, []) := by
  unfold stop_ffmpeg
  rw [h]

theorem stop_ffmpeg_snd_shape (sid : String) (skip : Bool) (now : Nat)
    (s : SysState) :
    ∀ a ∈ (stop_ffmpeg sid skip now s).2,
      a = Action.terminateProcess sid ∨ ∃ m, a = Action.logMsg m := by
  intro a ha
  unfold stop_ffmpeg at ha
  cases hl : lookupA s.active_streams sid with
  | none =>
      simp only [hl] at ha
      simp at ha
  | some pid =>
      simp only [hl] at ha
      rcases List.mem_cons.mp ha with rfl | hmem
      · exact Or.inl rfl
      · right
        split at hmem
        · simp at hmem
        · split at hmem
          · split at hmem
            · exact ⟨_, List.mem_singleton.mp hmem⟩
            · simp at hmem
          · simp at hmem

theorem stop_ffmpeg_counts (sid : String) (skip : Bool) (now : Nat)
    (s : SysState) :
    countNotify (stop_ffmpeg sid skip now s).2 = 0 ∧
    countRestartSched (stop_ffmpeg sid skip now s).2 = 0 ∧
    countSpawn (stop_ffmpeg sid skip now s).2 = 0 := by
  refine ⟨List.countP_eq_zero.mpr ?_, List.countP_eq_zero.mpr ?_,
    List.countP_eq_zero.mpr ?_⟩ <;>
  · intro a ha
    rcases stop_ffmpeg_snd_shape sid skip now s a ha with rfl | ⟨m, rfl⟩ <;>
      simp [isNotify, isRestartSched, isSpawn]

theorem stop_ffmpeg_no_action (sid key : String) (skip : Bool) (now : Nat)
    (s : SysState) (d : Nat) :
    Action.scheduleStart key d ∉ (stop_ffmpeg sid skip now s).2 := by
  intro hmem
  rcases stop_ffmpeg_snd_shape sid skip now s _ hmem with h | ⟨m, h⟩ <;>
    simp at h

/-! ## Helper lemmas about `foldSteps` -/

theorem foldSteps_id {β : Type}
    (step : SysState → β → SysState × List Action) (s : SysState) :
    ∀ xs : List β, (∀ x ∈ xs, step s x = (s, [])) →
      foldSteps step s xs = (s, []) := by
  intro xs
  induction xs with
  | nil => intro _; rfl
  | cons x rest ih =>
      intro h
      have hx : step s x = (s, []) := h x (List.mem_cons_self x rest)
      simp [foldSteps, hx, ih fun y hy => h y (List.mem_cons_of_mem x hy)]

theorem foldSteps_pres {β : Type} (P : SysState → Prop)
    (step : SysState → β → SysState × List Action)
    (hstep : ∀ st x, P st → P (step st x).1) :
    ∀ (xs : List β) (st : SysState), P st → P (foldSteps step st xs).1 := by
  intro xs
  induction xs with
  | nil => intro st h; exact h
  | cons x rest ih =>
      intro st h
      simp only [foldSteps]
      exact ih (step st x).1 (hstep st x h)

/-! ## Helper lemmas about `start_ffmpeg` -/

theorem start_ffmpeg_no_cache (item : StreamItem) (spawnResult : Option Nat)
    (now : Nat) (s : SysState)
    (h : lookupA s.stream_cache item.id = none) :
    start_ffmpeg item spawnResult now s =
      (s, [Action.logMsg ("No cache for " ++ item.name ++
        ", cannot start")]) := by
  unfold start_ffmpeg
  rw [h]

theorem start_ffmpeg_guard (item : StreamItem) (spawnResult : Option Nat)
    (now : Nat) (s : SysState)
    (h : lookupA s.server_states item.id = some ServerState.starting ∨
         lookupA s.server_states item.id = some ServerState.restarting) :
    (start_ffmpeg item spawnResult now s).1 = s ∧
    countSpawn (start_ffmpeg item spawnResult now s).2 = 0 := by
  unfold start_ffmpeg
  cases hc : lookupA s.stream_cache item.id
  · exact ⟨rfl, rfl⟩
  · rw [if_pos h]
    exact ⟨rfl, rfl⟩

/-! ## Claim theorems -/

/-- Claim C10 (confirmed): for every stream item whose ID has no credential
record in the cache, `start_ffmpeg` returns without spawning a process and
without modifying any state — the result state is exactly the input state
and the only emitted action is a log line, so no entry is added to the
active-process map, start-time map, state map, or timer maps, and a launch
can never occur without a credential. -/
theorem C10_no_credential_no_launch (item : StreamItem)
    (spawnResult : Option Nat) (now : Nat) (s : SysState)
    (h : lookupA s.stream_cache item.id = none) :
    start_ffmpeg item spawnResult now s =
      (s, [Action.logMsg ("No cache for " ++ item.name ++
        ", cannot start")]) :=
  start_ffmpeg_no_cache item spawnResult now s h

/-- Witness for C10 at a concrete input: `item0` has no cache entry in the
empty state, and `start_ffmpeg` leaves the state untouched. -/
theorem C10_witness :
    lookupA sEmpty0.stream_cache item0.id = none ∧
    start_ffmpeg item0 (some 7) 5 sEmpty0 =
      (sEmpty0, [Action.logMsg ("No cache for " ++ item0.name ++
        ", cannot start")]) :=
  ⟨rfl, C10_no_credential_no_launch item0 (some 7) 5 sEmpty0 rfl⟩

/-- Claim C1 (code bug): the crash-restart callback can never relaunch
anything.  `restart_stream` only proceeds when the stream state is still
`restarting`, but `start_ffmpeg`, which it calls, refuses any stream whose
state is `starting` or `restarting` — precisely the state the crash handler
just set.  So for EVERY state, spawn outcome and time, the callback leaves
the state bit-for-bit unchanged and spawns nothing: a crashed stream is
never restarted, contradicting the claim (and the crash report and log
lines of the code itself, which promise a restart after the crash delay). -/
theorem C1_restart_callback_never_relaunches (item : StreamItem)
    (spawnResult : Option Nat) (now : Nat) (s : SysState) :
    (restart_stream item spawnResult now s).1 = s ∧
    countSpawn (restart_stream item spawnResult now s).2 = 0 := by
  unfold restart_stream
  split
  case isTrue h =>
      have hg := start_ffmpeg_guard item spawnResult now s (Or.inr h.2)
      refine ⟨hg.1, ?_⟩
      have h0 : (start_ffmpeg item spawnResult now s).2.countP isSpawn = 0 :=
        hg.2
      simp [countSpawn, List.countP_cons, isSpawn, h0]
  case isFalse h => exact ⟨rfl, rfl⟩

/-- Evaluation of the C1 failing input: stream `"i"` is `restarting` with a
cached credential and the system running; the timer fires, the spawn would
succeed, and yet the state is unchanged — the stream stays `restarting`
forever and no process is spawned. -/
theorem C1_failing_input_eval :
    (restart_stream item0 (some 9) 5 sRestarting0).1 = sRestarting0 ∧
    countSpawn (restart_stream item0 (some 9) 5 sRestarting0).2 = 0 ∧
    lookupA sRestarting0.stream_cache item0.id = some cache0 ∧
    lookupA ((restart_stream item0 (some 9) 5 sRestarting0).1).server_states
      item0.id = some ServerState.restarting := by
  refine ⟨(C1_restart_callback_never_relaunches item0 (some 9) 5
    sRestarting0).1,
    (C1_restart_callback_never_relaunches item0 (some 9) 5 sRestarting0).2,
    ?_, ?_⟩ <;> decide

/-- Claim C9 (confirmed): once the global system state has left `running`,
none of the deferred callbacks `restart_stream`, `start_new_server` or
`start_ffmpeg_after_rotation` does anything at all: each re-checks the
global state before acting, so no new relay process is ever started after
shutdown begins. -/
theorem C9_no_launch_after_shutdown (item : StreamItem) (sid : String)
    (spawnResult : Option Nat) (now : Nat) (s : SysState)
    (h : s.system_state = SystemState.stopping) :
    restart_stream item spawnResult now s = (s, []) ∧
    start_new_server sid item spawnResult now s = (s, []) ∧
    start_ffmpeg_after_rotation item spawnResult now s = (s, []) := by
  have hne : ¬s.system_state = SystemState.running := by
    rw [h]; intro hc; cases hc
  refine ⟨?_, ?_, ?_⟩ <;>
    simp [restart_stream, start_new_server, start_ffmpeg_after_rotation, hne]

/-- Witness for C9 at a concrete input: in the stopped state every deferred
launch callback is a no-op. -/
theorem C9_witness :
    sStopping0.system_state = SystemState.stopping ∧
    restart_stream item0 (some 9) 5 sStopping0 = (sStopping0, []) ∧
    start_new_server "i" item0 (some 9) 5 sStopping0 = (sStopping0, []) ∧
    start_ffmpeg_after_rotation item0 (some 9) 5 sStopping0 =
      (sStopping0, []) :=
  ⟨rfl,
   (C9_no_launch_after_shutdown item0 "i" (some 9) 5 sStopping0 rfl).1,
   (C9_no_launch_after_shutdown item0 "i" (some 9) 5 sStopping0 rfl).2.1,
   (C9_no_launch_after_shutdown item0 "i" (some 9) 5 sStopping0 rfl).2.2⟩

/-- Counterexample to claim C8 as stated: in a state holding a start-time
entry for `"i"` but no live process entry, `stop_ffmpeg` is a total no-op,
so after it returns the ID is NOT absent from the start-time map — the
claim that the ID ends up absent from both maps on any stream ID is false. -/
theorem C8_counterexample :
    stop_ffmpeg "i" true 0 sOrphanStart0 = (sOrphanStart0, []) ∧
    lookupA ((stop_ffmpeg "i" true 0 sOrphanStart0).1).stream_start_times
      "i" = some 3 := by
  constructor <;> decide

/-- Claim C8 as amended (proved): `stop_ffmpeg` is totally defined and
idempotent on any stream ID, and calling it for an ID with no live process
entry is a no-op that leaves the WHOLE state unchanged — including any
orphan start-time entry, which is only deleted together with a live process
entry.  When a live process entry exists, after the call the ID is absent
from both the active-process map and the start-time map; and a second call
immediately after the first is always a no-op, so calling it twice leaves
the state identical to calling it once. -/
theorem C8_amended_stop_idempotent (sid : String) (skip : Bool) (now : Nat)
    (s : SysState) :
    (lookupA s.active_streams sid = none →
       stop_ffmpeg sid skip now s = (s, [])) ∧
    lookupA ((stop_ffmpeg sid skip now s).1).active_streams sid = none ∧
    ((lookupA s.active_streams sid).isSome →
       lookupA ((stop_ffmpeg sid skip now s).1).stream_start_times sid =
         none) ∧
    stop_ffmpeg sid skip now ((stop_ffmpeg sid skip now s).1) =
      ((stop_ffmpeg sid skip now s).1, []) := by
  exact ⟨stop_ffmpeg_noop sid skip now s,
    stop_ffmpeg_active_self sid skip now s,
    stop_ffmpeg_start_self sid skip now s,
    stop_ffmpeg_noop sid skip now _
      (stop_ffmpeg_active_self sid skip now s)⟩

/-- Witness for C8 at concrete inputs: stopping the running stream of
`sRun0` removes both its process entry and its start time, and a repeated
stop is a no-op. -/
theorem C8_witness :
    (lookupA sRun0.active_streams "i").isSome ∧
    lookupA ((stop_ffmpeg "i" true 9 sRun0).1).active_streams "i" = none ∧
    lookupA ((stop_ffmpeg "i" true 9 sRun0).1).stream_start_times "i" =
      none ∧
    stop_ffmpeg "i" true 9 ((stop_ffmpeg "i" true 9 sRun0).1) =
      ((stop_ffmpeg "i" true 9 sRun0).1, []) :=
  ⟨by decide,
   (C8_amended_stop_idempotent "i" true 9 sRun0).2.1,
   (C8_amended_stop_idempotent "i" true 9 sRun0).2.2.1 (by decide),
   (C8_amended_stop_idempotent "i" true 9 sRun0).2.2.2⟩

/-! ## Crash handling lemmas and claim C2 -/

theorem stop_ffmpeg_countP_notify (sid : String) (skip : Bool) (now : Nat)
    (s : SysState) : (stop_ffmpeg sid skip now s).2.countP isNotify = 0 :=
  (stop_ffmpeg_counts sid skip now s).1

theorem stop_ffmpeg_countP_restart (sid : String) (skip : Bool) (now : Nat)
    (s : SysState) : (stop_ffmpeg sid skip now s).2.countP isRestartSched = 0 :=
  (stop_ffmpeg_counts sid skip now s).2.1

theorem handle_stream_crash_rotating (item : StreamItem) (reason : String)
    (now : Nat) (s : SysState)
    (h : lookupA s.server_states item.id = some ServerState.rotating) :
    handle_stream_crash item reason now s =
      (s, [Action.logMsg (item.name ++
        " crashed during rotation, will continue rotation process")]) := by
  unfold handle_stream_crash
  rw [if_pos h]

theorem handle_stream_crash_crash (item : StreamItem) (reason : String)
    (now : Nat) (s : SysState)
    (h : ¬lookupA s.server_states item.id = some ServerState.rotating) :
    countNotify (handle_stream_crash item reason now s).2 = 1 ∧
    countRestartSched (handle_stream_crash item reason now s).2 = 1 ∧
    lookupA (handle_stream_crash item reason now s).1.server_states item.id =
      some ServerState.restarting ∧
    lookupA (handle_stream_crash item reason now s).1.restart_timers item.id =
      some (CONFIG_crashedServerDelay / 1000) := by
  unfold handle_stream_crash
  rw [if_neg h]
  refine ⟨?_, ?_, ?_, ?_⟩
  · simp [countNotify, List.countP_cons, List.countP_append, isNotify,
      stop_ffmpeg_countP_notify]
  · simp [countRestartSched, List.countP_cons, List.countP_append,
      isRestartSched, stop_ffmpeg_countP_restart]
  · simp only [lookupA_insertA_ne]
    rw [stop_ffmpeg_states]
    exact lookupA_insertA_self _ _ _
  · exact lookupA_insertA_self _ _ _

/-- Any process exit observed while the stored state is anything but
`rotating` (including a deleted state entry) takes the full crash path:
one notification, one scheduled restart, state re-set to `restarting`, and
a restart timer stored. -/
theorem monitor_not_rotating (item : StreamItem) (rc : Int) (stderr : String)
    (now : Nat) (s : SysState)
    (h : ¬lookupA s.server_states item.id = some ServerState.rotating) :
    countNotify (monitor_ffmpeg_process item rc stderr now s).2 = 1 ∧
    countRestartSched (monitor_ffmpeg_process item rc stderr now s).2 = 1 ∧
    lookupA (monitor_ffmpeg_process item rc stderr now s).1.server_states
      item.id = some ServerState.restarting ∧
    lookupA (monitor_ffmpeg_process item rc stderr now s).1.restart_timers
      item.id = some (CONFIG_crashedServerDelay / 1000) := by
  have hh : ∀ reason,
      countNotify (handle_stream_crash item reason now s).2 = 1 ∧
      countRestartSched (handle_stream_crash item reason now s).2 = 1 ∧
      lookupA (handle_stream_crash item reason now s).1.server_states
        item.id = some ServerState.restarting ∧
      lookupA (handle_stream_crash item reason now s).1.restart_timers
        item.id = some (CONFIG_crashedServerDelay / 1000) :=
    fun reason => handle_stream_crash_crash item reason now s h
  unfold monitor_ffmpeg_process
  split <;>
  · refine ⟨?_, ?_, (hh _).2.2.1, (hh _).2.2.2⟩
    · simp [countNotify, List.countP_cons, isNotify] at hh ⊢
      exact (hh _).1
    · simp [countRestartSched, List.countP_cons, isRestartSched] at hh ⊢
      exact (hh _).2.1

/-- Claim C2 (confirmed): a process exit observed while the stream state is
`rotating` never produces a crash notification or a restart schedule — the
crash handler returns without acting — while a process exit observed while
the state is `running` always produces exactly one crash notification and
schedules exactly one restart, regardless of the exit code; the distinction
is gated purely on the stored state. -/
theorem C2_crash_handling_state_gated (item : StreamItem) (rc : Int)
    (stderr : String) (now : Nat) (s : SysState) :
    (lookupA s.server_states item.id = some ServerState.rotating →
       (monitor_ffmpeg_process item rc stderr now s).1 = s ∧
       countNotify (monitor_ffmpeg_process item rc stderr now s).2 = 0 ∧
       countRestartSched (monitor_ffmpeg_process item rc stderr now s).2 =
         0) ∧
    (lookupA s.server_states item.id = some ServerState.running →
       countNotify (monitor_ffmpeg_process item rc stderr now s).2 = 1 ∧
       countRestartSched (monitor_ffmpeg_process item rc stderr now s).2 =
         1 ∧
       lookupA (monitor_ffmpeg_process item rc stderr now s).1.server_states
         item.id = some ServerState.restarting ∧
       lookupA (monitor_ffmpeg_process item rc stderr now s).1.restart_timers
         item.id = some (CONFIG_crashedServerDelay / 1000)) := by
  constructor
  · intro h
    have hl : ∀ reason, handle_stream_crash item reason now s =
        (s, [Action.logMsg (item.name ++
          " crashed during rotation, will continue rotation process")]) :=
      fun reason => handle_stream_crash_rotating item reason now s h
    unfold monitor_ffmpeg_process
    split <;>
      simp [hl, countNotify, countRestartSched, List.countP_cons, isNotify,
        isRestartSched]
  · intro h
    have hnr : ¬lookupA s.server_states item.id =
        some ServerState.rotating := by
      rw [h]
      intro hc
      exact ServerState.noConfusion (Option.some.inj hc)
    have hh : ∀ reason,
        countNotify (handle_stream_crash item reason now s).2 = 1 ∧
        countRestartSched (handle_stream_crash item reason now s).2 = 1 ∧
        lookupA (handle_stream_crash item reason now s).1.server_states
          item.id = some ServerState.restarting ∧
        lookupA (handle_stream_crash item reason now s).1.restart_timers
          item.id = some (CONFIG_crashedServerDelay / 1000) :=
      fun reason => handle_stream_crash_crash item reason now s hnr
    unfold monitor_ffmpeg_process
    split <;>
    · refine ⟨?_, ?_, (hh _).2.2.1, (hh _).2.2.2⟩
      · simp [countNotify, List.countP_cons, isNotify] at hh ⊢
        exact (hh _).1
      · simp [countRestartSched, List.countP_cons, isRestartSched] at hh ⊢
        exact (hh _).2.1

/-- Witness for C2 at concrete inputs: an exit in the rotating state of
`sRot0` is swallowed; an exit with code zero in the running state of `sRun0`
produces exactly one notification and one restart schedule. -/
theorem C2_witness :
    (lookupA sRot0.server_states item0.id = some ServerState.rotating ∧
     (monitor_ffmpeg_process item0 1 "e" 5 sRot0).1 = sRot0 ∧
     countNotify (monitor_ffmpeg_process item0 1 "e" 5 sRot0).2 = 0) ∧
    (lookupA sRun0.server_states item0.id = some ServerState.running ∧
     countNotify (monitor_ffmpeg_process item0 0 "e" 5 sRun0).2 = 1 ∧
     countRestartSched (monitor_ffmpeg_process item0 0 "e" 5 sRun0).2 = 1) :=
  ⟨⟨by decide,
    ((C2_crash_handling_state_gated item0 1 "e" 5 sRot0).1 (by decide)).1,
    ((C2_crash_handling_state_gated item0 1 "e" 5 sRot0).1 (by decide)).2.1⟩,
   ⟨by decide,
    ((C2_crash_handling_state_gated item0 0 "e" 5 sRun0).2 (by decide)).1,
    ((C2_crash_handling_state_gated item0 0 "e" 5 sRun0).2
      (by decide)).2.1⟩⟩

/-! ## Claim C6 -/

/-- Claim C6 (code bug): the failing cycle indeed performs no additions, no
removals and no teardown (the action trace is empty), but the previously
tracked desired-state list is NOT kept unchanged: because `fetch_api_list`
returns the global `api_items` dict itself on a fetch error, the final
`api_items.clear(); api_items.update(new_list)` of `watcher` clears that
shared object and then copies from the now-empty dict, so the cycle ends
with an empty tracked list — every stream is re-detected as new on the next
successful fetch, contradicting the claim and the source comment
`Return current list on error`. -/
theorem C6_fetch_failure_empties_tracked_list
    (prov : StreamItem → Option StreamCache) (now : Nat) (s : SysState) :
    watcher none prov now s = ({ s with api_items := [] }, []) := by
  have hadd : foldSteps (addStep prov) s s.api_items = (s, []) := by
    apply foldSteps_id
    intro e he
    have hs : (lookupA s.api_items e.1).isSome :=
      lookupA_isSome_of_mem _ e he
    simp [addStep, hs]
  have hrem : foldSteps (remStep s.api_items now) s s.api_items = (s, []) := by
    apply foldSteps_id
    intro e he
    have hs : (lookupA s.api_items e.1).isSome :=
      lookupA_isSome_of_mem _ e he
    simp [remStep, hs]
  unfold watcher
  simp only [Option.getD_none]
  rw [hadd]
  simp [hrem]

/-- Evaluation of the C6 failing input: one stream is tracked and live in
`sRun0`; a cycle whose fetch fails leaves the maps alone but empties the
tracked list. -/
theorem C6_failing_input_eval :
    (watcher none provFail 0 sRun0).1.api_items = [] ∧
    (watcher none provFail 0 sRun0).2 = [] ∧
    lookupA (watcher none provFail 0 sRun0).1.active_streams "i" =
      some 44 := by
  refine ⟨?_, ?_, ?_⟩ <;> decide

/-! ## Claim C7 -/

/-- Claim C7 (confirmed): loading the credential cache never raises out of
the loader and never aborts boot — `load_cache` is a total function.  An
absent file and an empty (or whitespace-only) file yield the empty cache; a
file that `json.loads` rejects yields the empty cache (after the backup
attempt, which touches no in-memory state); a parsed but falsy top level
yields the empty cache; a parsed top level that is not a JSON object — a
content class on which Python raises inside `json_data.items()` and the
handler clears the cache — yields the empty cache; and a parsed object
holding any entry that `StreamCache(**v)` rejects also yields the empty
cache, discarding partially inserted entries — in every corruption case the
system proceeds with zero pre-provisioned streams, which triggers
reprovisioning. -/
theorem C7_cache_load_never_fatal (parse : String → Option Json) :
    load_cache none parse = [] ∧
    (∀ data : String, data.trim = "" → load_cache (some data) parse = []) ∧
    (∀ data : String, parse data = none → load_cache (some data) parse = []) ∧
    (∀ (data : String) (j : Json), parse data = some j → Json.falsy j →
       load_cache (some data) parse = []) ∧
    (∀ (data : String) (j : Json), parse data = some j →
       (∀ fields : List (String × Json), j ≠ Json.obj fields) →
       load_cache (some data) parse = []) ∧
    (∀ (data : String) (fields : List (String × Json)),
       parse data = some (Json.obj fields) → decodeAllEntries fields = none →
       load_cache (some data) parse = []) := by
  refine ⟨rfl, ?_, ?_, ?_, ?_, ?_⟩
  · intro data hdata
    simp [load_cache, hdata]
  · intro data hp
    by_cases hq : data = "" ∨ data.trim = ""
    · simp [load_cache, hq]
    · simp [load_cache, hq, hp]
  · intro data j hp hfalsy
    by_cases hq : data = "" ∨ data.trim = ""
    · simp [load_cache, hq]
    · simp [load_cache, hq, hp, hfalsy]
  · intro data j hp hnotobj
    by_cases hq : data = "" ∨ data.trim = ""
    · simp [load_cache, hq]
    · by_cases hf : Json.falsy j = true
      · simp [load_cache, hq, hp, hf]
      · cases j with
        | null => simp [load_cache, hq, hp, hf]
        | bool b => simp [load_cache, hq, hp, hf]
        | num n => simp [load_cache, hq, hp, hf]
        | str s2 => simp [load_cache, hq, hp, hf]
        | arr xs => simp [load_cache, hq, hp, hf]
        | obj fields => exact absurd rfl (hnotobj fields)
  · intro data fields hp hdec
    by_cases hq : data = "" ∨ data.trim = ""
    · simp [load_cache, hq]
    · by_cases hf : Json.falsy (Json.obj fields) = true
      · simp [load_cache, hq, hp, hf]
      · simp [load_cache, hq, hp, hf, hdec]

/-- Witness for C7 at concrete inputs: a parse failure on content `"xyz"`,
an absent file, and a file parsing to the truthy non-dict top level `[1]`
all load the empty cache. -/
theorem C7_witness :
    load_cache (some "xyz") parseFail = [] ∧
    load_cache none parseFail = [] ∧
    (parseArr "xyz" = some (Json.arr [Json.num 1]) ∧
     load_cache (some "xyz") parseArr = []) :=
  ⟨(C7_cache_load_never_fatal parseFail).2.2.1 "xyz" rfl,
   (C7_cache_load_never_fatal parseFail).1,
   rfl,
   (C7_cache_load_never_fatal parseArr).2.2.2.2.1 "xyz"
     (Json.arr [Json.num 1]) rfl
     (fun _fields h => Json.noConfusion h)⟩

/-! ## Removal-pass lemmas and claim C3 -/

theorem eraseA_of_lookupA_none {α : Type} :
    ∀ (l : List (String × α)) (k : String), lookupA l k = none →
      eraseA l k = l := by
  intro l k
  induction l with
  | nil => intro _; rfl
  | cons p rest ih =>
      obtain ⟨k', v⟩ := p
      intro h
      by_cases hk : k' = k
      · subst hk
        simp [lookupA] at h
      · simp only [lookupA, if_neg hk] at h
        simp [eraseA, hk, ih h]

theorem eraseA_idem {α : Type} (l : List (String × α)) (k : String) :
    eraseA (eraseA l k) k = eraseA l k :=
  eraseA_of_lookupA_none _ _ (lookupA_eraseA_self l k)

theorem removeOne_fst (now : Nat) (st : SysState) (sid : String) :
    (removeOne now st sid).1 =
      { st with
          active_streams := eraseA st.active_streams sid,
          stream_cache := eraseA st.stream_cache sid,
          stream_start_times := eraseA st.stream_start_times sid,
          stream_rotation_timers := eraseA st.stream_rotation_timers sid,
          restart_timers := eraseA st.restart_timers sid,
          server_states := eraseA st.server_states sid } := by
  unfold removeOne
  cases h1 : lookupA st.restart_timers sid with
  | none =>
      simp only [h1]
      cases h2 : lookupA st.stream_rotation_timers sid with
      | none =>
          simp only [h2]
          rw [stop_ffmpeg_fst]
          cases h3 : lookupA st.active_streams sid with
          | none =>
              simp only [h3]
              simp [eraseA_of_lookupA_none _ _ h1,
                eraseA_of_lookupA_none _ _ h2, eraseA_of_lookupA_none _ _ h3]
          | some pid =>
              simp only [h3]
              simp [eraseA_of_lookupA_none _ _ h1,
                eraseA_of_lookupA_none _ _ h2, eraseA_idem]
      | some rt =>
          simp only [h2]
          rw [stop_ffmpeg_fst]
          cases h3 : lookupA st.active_streams sid with
          | none =>
              simp only [h3]
              simp [eraseA_of_lookupA_none _ _ h1,
                eraseA_of_lookupA_none _ _ h3]
          | some pid =>
              simp only [h3]
              simp [eraseA_of_lookupA_none _ _ h1, eraseA_idem]
  | some rt0 =>
      simp only [h1]
      cases h2 : lookupA st.stream_rotation_timers sid with
      | none =>
          simp only [h2]
          rw [stop_ffmpeg_fst]
          cases h3 : lookupA st.active_streams sid with
          | none =>
              simp only [h3]
              simp [eraseA_of_lookupA_none _ _ h2,
                eraseA_of_lookupA_none _ _ h3]
          | some pid =>
              simp only [h3]
              simp [eraseA_of_lookupA_none _ _ h2, eraseA_idem]
      | some rt =>
          simp only [h2]
          rw [stop_ffmpeg_fst]
          cases h3 : lookupA st.active_streams sid with
          | none =>
              simp only [h3]
              simp [eraseA_of_lookupA_none _ _ h3]
          | some pid =>
              simp only [h3]
              simp [eraseA_idem]

theorem removeOne_noTrace_self (now : Nat) (st : SysState) (sid : String) :
    noTrace sid (removeOne now st sid).1 := by
  rw [removeOne_fst]
  exact ⟨lookupA_eraseA_self _ _, lookupA_eraseA_self _ _,
    lookupA_eraseA_self _ _, lookupA_eraseA_self _ _,
    lookupA_eraseA_self _ _, lookupA_eraseA_self _ _⟩

theorem removeOne_pres_noTrace (now : Nat) (st : SysState) (k sid : String)
    (h : noTrace sid st) : noTrace sid (removeOne now st k).1 := by
  rw [removeOne_fst]
  obtain ⟨h1, h2, h3, h4, h5, h6⟩ := h
  exact ⟨lookupA_eraseA_none _ _ h1, lookupA_eraseA_none _ _ h2,
    lookupA_eraseA_none _ _ h3, lookupA_eraseA_none _ _ h4,
    lookupA_eraseA_none _ _ h5, lookupA_eraseA_none _ _ h6⟩

theorem remStep_pres_noTrace (nl : List (String × StreamItem)) (now : Nat)
    (sid : String) (st : SysState) (e : String × StreamItem)
    (h : noTrace sid st) : noTrace sid (remStep nl now st e).1 := by
  unfold remStep
  split
  · exact h
  · exact removeOne_pres_noTrace now st e.1 sid h

theorem remPass_noTrace (nl : List (String × StreamItem)) (now : Nat)
    (sid : String) (hnl : lookupA nl sid = none) :
    ∀ (xs : List (String × StreamItem)) (st : SysState) (v : StreamItem),
      (sid, v) ∈ xs → noTrace sid (foldSteps (remStep nl now) st xs).1 := by
  intro xs
  induction xs with
  | nil => intro st v hmem; simp at hmem
  | cons e rest ih =>
      intro st v hmem
      simp only [foldSteps]
      rcases List.mem_cons.mp hmem with he | hrest
      · have hstep : noTrace sid (remStep nl now st e).1 := by
          rw [← he]
          unfold remStep
          rw [hnl]
          exact removeOne_noTrace_self now st sid
        exact foldSteps_pres (noTrace sid) (remStep nl now)
          (fun st' x h' => remStep_pres_noTrace nl now sid st' x h') rest
          (remStep nl now st e).1 hstep
      · exact ih (remStep nl now st e).1 v hrest

/-! Field-preservation lemmas for the two passes of `watcher`. -/

theorem addStep_api (prov : StreamItem → Option StreamCache) (st : SysState)
    (e : String × StreamItem) :
    (addStep prov st e).1.api_items = st.api_items := by
  unfold addStep
  split
  · rfl
  · cases prov e.2 <;> rfl

theorem addPass_api (prov : StreamItem → Option StreamCache)
    (xs : List (String × StreamItem)) (st : SysState) :
    (foldSteps (addStep prov) st xs).1.api_items = st.api_items :=
  foldSteps_pres (fun t => t.api_items = st.api_items) (addStep prov)
    (fun st' x h => by
      show (addStep prov st' x).1.api_items = st.api_items
      rw [addStep_api]
      exact h) xs st rfl

theorem addStep_pres_ne (prov : StreamItem → Option StreamCache)
    (st : SysState) (e : String × StreamItem) (sid : String)
    (hne : e.1 ≠ sid) :
    lookupA (addStep prov st e).1.stream_cache sid =
      lookupA st.stream_cache sid ∧
    lookupA (addStep prov st e).1.server_states sid =
      lookupA st.server_states sid := by
  unfold addStep
  split
  · exact ⟨rfl, rfl⟩
  · cases prov e.2 with
    | none => exact ⟨rfl, rfl⟩
    | some preview =>
        exact ⟨lookupA_insertA_ne _ _ hne, lookupA_insertA_ne _ _ hne⟩

/-- Claim C3 (code bug): for a stream ID that is tracked but absent from
the successfully fetched new list, one `watcher` cycle does cancel and
delete its restart timer and rotation timer, terminate its process, and
delete its credential-cache entry, start time and state entry — immediately
after the cycle no resource keyed by that ID remains in any map, the ID is
no longer tracked, and every deferred launch callback (`restart_stream`,
`start_new_server`, `start_ffmpeg_after_rotation`) is a strict no-op on the
resulting state.  But the claim's conclusion that no further transition
ever occurs for the removed stream is FALSE whenever the cycle terminated a
live process: that process's monitor thread then observes the exit, and
`handle_stream_crash` — which never re-checks whether the stream is still
desired, and finds the deleted state entry different from `rotating` —
sends a spurious crash notification and re-creates a `restarting` state
entry and a restart timer for the removed ID (final conjunct), resources
that nothing ever removes again. -/
theorem C3_removal_teardown_and_late_exit
    (nl : List (String × StreamItem))
    (prov : StreamItem → Option StreamCache) (now : Nat) (s : SysState)
    (sid : String) (item : StreamItem)
    (htracked : lookupA s.api_items sid = some item)
    (hgone : lookupA nl sid = none) :
    noTrace sid (watcher (some nl) prov now s).1 ∧
    lookupA (watcher (some nl) prov now s).1.api_items sid = none ∧
    (∀ (it : StreamItem) (spawnResult : Option Nat) (now2 : Nat),
       it.id = sid →
       restart_stream it spawnResult now2 (watcher (some nl) prov now s).1 =
         ((watcher (some nl) prov now s).1, [])) ∧
    (∀ (it : StreamItem) (spawnResult : Option Nat) (now2 : Nat),
       start_new_server sid it spawnResult now2
           (watcher (some nl) prov now s).1 =
         ((watcher (some nl) prov now s).1, [])) ∧
    (∀ (it : StreamItem) (spawnResult : Option Nat) (now2 : Nat),
       it.id = sid →
       start_ffmpeg_after_rotation it spawnResult now2
           (watcher (some nl) prov now s).1 =
         ((watcher (some nl) prov now s).1, [])) ∧
    (∀ (it : StreamItem) (rc : Int) (stderr : String) (now2 : Nat),
       it.id = sid →
       countNotify (monitor_ffmpeg_process it rc stderr now2
         (watcher (some nl) prov now s).1).2 = 1 ∧
       lookupA (monitor_ffmpeg_process it rc stderr now2
         (watcher (some nl) prov now s).1).1.server_states sid =
         some ServerState.restarting ∧
       lookupA (monitor_ffmpeg_process it rc stderr now2
         (watcher (some nl) prov now s).1).1.restart_timers sid =
         some (CONFIG_crashedServerDelay / 1000)) := by
  have hmem : (sid, item) ∈ (foldSteps (addStep prov) s nl).1.api_items := by
    rw [addPass_api]
    exact mem_of_lookupA _ _ _ htracked
  have hnt2 : noTrace sid (foldSteps (remStep nl now)
      (foldSteps (addStep prov) s nl).1
      (foldSteps (addStep prov) s nl).1.api_items).1 :=
    remPass_noTrace nl now sid hgone _ _ item hmem
  have hw : noTrace sid (watcher (some nl) prov now s).1 ∧
      lookupA (watcher (some nl) prov now s).1.api_items sid = none := by
    unfold watcher
    simp only [Option.getD_some]
    exact ⟨hnt2, hgone⟩
  have hstates : lookupA (watcher (some nl) prov now s).1.server_states sid =
      none := hw.1.2.2.2.1
  refine ⟨hw.1, hw.2, ?_, ?_, ?_, ?_⟩
  · intro it spawnResult now2 hid
    have hcond : ¬((watcher (some nl) prov now s).1.system_state =
        SystemState.running ∧
        lookupA (watcher (some nl) prov now s).1.server_states it.id =
          some ServerState.restarting) := by
      intro hc
      rw [hid, hstates] at hc
      exact Option.noConfusion hc.2
    unfold restart_stream
    rw [if_neg hcond]
  · intro it spawnResult now2
    have hcond : ¬((watcher (some nl) prov now s).1.system_state =
        SystemState.running ∧
        lookupA (watcher (some nl) prov now s).1.server_states sid =
          some ServerState.starting) := by
      intro hc
      rw [hstates] at hc
      exact Option.noConfusion hc.2
    unfold start_new_server
    rw [if_neg hcond]
  · intro it spawnResult now2 hid
    have hcond : ¬((watcher (some nl) prov now s).1.system_state =
        SystemState.running ∧
        lookupA (watcher (some nl) prov now s).1.server_states it.id =
          some ServerState.starting) := by
      intro hc
      rw [hid, hstates] at hc
      exact Option.noConfusion hc.2
    unfold start_ffmpeg_after_rotation
    rw [if_neg hcond]
  · intro it rc stderr now2 hid
    have hnr : ¬lookupA (watcher (some nl) prov now s).1.server_states
        it.id = some ServerState.rotating := by
      rw [hid, hstates]
      exact fun hc => Option.noConfusion hc
    have hm := monitor_not_rotating it rc stderr now2
      (watcher (some nl) prov now s).1 hnr
    rw [← hid]
    exact ⟨hm.1, hm.2.2.1, hm.2.2.2⟩

/-- Witness for C3 at a concrete input: stream `"i"` is fully live in
`sRun0` and the fetched list is empty; after the cycle nothing keyed by
`"i"` remains and the deferred launch callbacks are no-ops, yet delivering
the terminated process's exit event emits one crash notification and
re-creates the `restarting` state entry and a restart timer for `"i"`. -/
theorem C3_witness :
    lookupA sRun0.api_items "i" = some item0 ∧
    lookupA ([] : List (String × StreamItem)) "i" = none ∧
    noTrace "i" (watcher (some []) provFail 7 sRun0).1 ∧
    restart_stream item0 (some 9) 8 (watcher (some []) provFail 7 sRun0).1 =
      ((watcher (some []) provFail 7 sRun0).1, []) ∧
    countNotify (monitor_ffmpeg_process item0 0 "x" 9
      (watcher (some []) provFail 7 sRun0).1).2 = 1 ∧
    lookupA (monitor_ffmpeg_process item0 0 "x" 9
      (watcher (some []) provFail 7 sRun0).1).1.server_states "i" =
      some ServerState.restarting :=
  ⟨by decide, rfl,
   (C3_removal_teardown_and_late_exit [] provFail 7 sRun0 "i" item0
     (by decide) rfl).1,
   (C3_removal_teardown_and_late_exit [] provFail 7 sRun0 "i" item0
     (by decide) rfl).2.2.1 item0 (some 9) 8 rfl,
   ((C3_removal_teardown_and_late_exit [] provFail 7 sRun0 "i" item0
     (by decide) rfl).2.2.2.2.2 item0 0 "x" 9 rfl).1,
   ((C3_removal_teardown_and_late_exit [] provFail 7 sRun0 "i" item0
     (by decide) rfl).2.2.2.2.2 item0 0 "x" 9 rfl).2.1⟩

/-! ## Claim C4 -/

/-- Claim C4 (confirmed): the derived stream ID is a pure deterministic
function of `(name, sourceURI)` — two descriptors whose name and source
agree up to surrounding whitespace (which is stripped) always map to the
same ID — and re-fetching an unchanged descriptor list is absorbed without a
single action: when the tracked list already equals the fetch of `ds`, a
`watcher` cycle on the same fetch performs no addition, no removal, no
teardown and leaves the state identical. -/
theorem C4_stable_stream_id (n1 src1 n2 src2 : String) (ds : List RawStream)
    (st : SysState) (prov : StreamItem → Option StreamCache) (now : Nat)
    (hn : pyStrip n1 = pyStrip n2) (hsrc : pyStrip src1 = pyStrip src2)
    (hst : st.api_items = fetchItems ds) :
    generate_stream_id n1 src1 = generate_stream_id n2 src2 ∧
    watcher (some (fetchItems ds)) prov now st = (st, []) := by
  constructor
  · unfold generate_stream_id
    rw [hn, hsrc]
  · have hadd : foldSteps (addStep prov) st (fetchItems ds) = (st, []) := by
      apply foldSteps_id
      intro e he
      have hsome : (lookupA st.api_items e.1).isSome := by
        rw [hst]
        exact lookupA_isSome_of_mem _ e he
      simp [addStep, hsome]
    have hrem : foldSteps (remStep (fetchItems ds) now) st st.api_items =
        (st, []) := by
      apply foldSteps_id
      intro e he
      have hsome : (lookupA (fetchItems ds) e.1).isSome := by
        rw [hst] at he
        exact lookupA_isSome_of_mem _ e he
      simp [remStep, hsome]
    unfold watcher
    simp only [Option.getD_some]
    rw [hadd]
    simp only []
    rw [hrem]
    rw [← hst]
    simp

/-- Witness for C4 at concrete inputs: whitespace-shifted copies of the same
descriptor map to the same ID, and re-fetching the unchanged list `ds0` over
the already-synchronized state `sFetched0` produces no state change and no
action. -/
theorem C4_witness :
    (pyStrip " My Stream " = pyStrip "My Stream" ∧
     pyStrip "rtmp://example/a " = pyStrip " rtmp://example/a" ∧
     sFetched0.api_items = fetchItems ds0) ∧
    generate_stream_id " My Stream " "rtmp://example/a " =
      generate_stream_id "My Stream" " rtmp://example/a" ∧
    watcher (some (fetchItems ds0)) provFail 3 sFetched0 = (sFetched0, []) :=
  ⟨⟨by decide, by decide, rfl⟩,
   (C4_stable_stream_id " My Stream " "rtmp://example/a " "My Stream"
     " rtmp://example/a" ds0 sFetched0 provFail 3 (by decide) (by decide)
     rfl).1,
   (C4_stable_stream_id " My Stream " "rtmp://example/a " "My Stream"
     " rtmp://example/a" ds0 sFetched0 provFail 3 (by decide) (by decide)
     rfl).2⟩

/-! ## Additions-pass lemmas and claim C5 -/

theorem keys_ne_of_lookupA_none {α : Type} (l : List (String × α))
    (sid : String) (h : lookupA l sid = none) : ∀ e ∈ l, e.1 ≠ sid := by
  intro e he hc
  have hs := lookupA_isSome_of_mem l e he
  rw [hc, h] at hs
  simp at hs

theorem addStep_snd_shape (prov : StreamItem → Option StreamCache)
    (st : SysState) (e : String × StreamItem) :
    ∀ a ∈ (addStep prov st e).2,
      (∃ m, a = Action.logMsg m) ∨ a = Action.saveCache ∨
      a = Action.scheduleStart e.1 (CONFIG_newServerDelay / 1000) := by
  intro a ha
  unfold addStep at ha
  split at ha
  · simp at ha
  · cases hp : prov e.2 <;> simp only [hp] at ha <;>
      simp only [List.mem_cons, List.mem_singleton, List.not_mem_nil,
        or_false] at ha
    · rcases ha with rfl | rfl
      · exact Or.inl ⟨_, rfl⟩
      · exact Or.inl ⟨_, rfl⟩
    · rcases ha with rfl | rfl | rfl | rfl
      · exact Or.inl ⟨_, rfl⟩
      · exact Or.inr (Or.inl rfl)
      · exact Or.inl ⟨_, rfl⟩
      · exact Or.inr (Or.inr rfl)

theorem addStep_no_schedStart_ne (prov : StreamItem → Option StreamCache)
    (st : SysState) (e : String × StreamItem) (sid : String) (d : Nat)
    (hne : e.1 ≠ sid) :
    Action.scheduleStart sid d ∉ (addStep prov st e).2 := by
  intro hmem
  rcases addStep_snd_shape prov st e _ hmem with ⟨m, h⟩ | h | h
  · simp at h
  · simp at h
  · rw [Action.scheduleStart.injEq] at h
    exact hne (h.1.symm)

theorem removeOne_snd_shape (now : Nat) (st : SysState) (sid : String) :
    ∀ a ∈ (removeOne now st sid).2,
      (∃ m, a = Action.logMsg m) ∨ a = Action.cancelTimer sid ∨
      a = Action.terminateProcess sid ∨ a = Action.saveCache := by
  intro a ha
  unfold removeOne at ha
  cases h1 : lookupA st.restart_timers sid <;> simp only [h1] at ha <;>
    cases h2 : lookupA st.stream_rotation_timers sid <;>
      simp only [h2] at ha <;>
        simp only [List.cons_append, List.nil_append, List.mem_cons,
          List.mem_append, List.mem_singleton, List.not_mem_nil,
          or_false] at ha
  · rcases ha with rfl | ha | rfl
    · exact Or.inl ⟨_, rfl⟩
    · rcases stop_ffmpeg_snd_shape sid true now _ a ha with rfl | ⟨m, rfl⟩
      · exact Or.inr (Or.inr (Or.inl rfl))
      · exact Or.inl ⟨_, rfl⟩
    · exact Or.inr (Or.inr (Or.inr rfl))
  · rcases ha with rfl | rfl | ha | rfl
    · exact Or.inl ⟨_, rfl⟩
    · exact Or.inr (Or.inl rfl)
    · rcases stop_ffmpeg_snd_shape sid true now _ a ha with rfl | ⟨m, rfl⟩
      · exact Or.inr (Or.inr (Or.inl rfl))
      · exact Or.inl ⟨_, rfl⟩
    · exact Or.inr (Or.inr (Or.inr rfl))
  · rcases ha with rfl | rfl | ha | rfl
    · exact Or.inl ⟨_, rfl⟩
    · exact Or.inr (Or.inl rfl)
    · rcases stop_ffmpeg_snd_shape sid true now _ a ha with rfl | ⟨m, rfl⟩
      · exact Or.inr (Or.inr (Or.inl rfl))
      · exact Or.inl ⟨_, rfl⟩
    · exact Or.inr (Or.inr (Or.inr rfl))
  · rcases ha with rfl | rfl | rfl | ha | rfl
    · exact Or.inl ⟨_, rfl⟩
    · exact Or.inr (Or.inl rfl)
    · exact Or.inr (Or.inl rfl)
    · rcases stop_ffmpeg_snd_shape sid true now _ a ha with rfl | ⟨m, rfl⟩
      · exact Or.inr (Or.inr (Or.inl rfl))
      · exact Or.inl ⟨_, rfl⟩
    · exact Or.inr (Or.inr (Or.inr rfl))

theorem removeOne_no_schedStart (now : Nat) (st : SysState)
    (sid k : String) (d : Nat) :
    Action.scheduleStart k d ∉ (removeOne now st sid).2 := by
  intro hmem
  rcases removeOne_snd_shape now st sid _ hmem with ⟨m, h⟩ | h | h | h <;>
    simp at h

theorem remStep_no_schedStart (nl : List (String × StreamItem)) (now : Nat)
    (st : SysState) (e : String × StreamItem) (k : String) (d : Nat) :
    Action.scheduleStart k d ∉ (remStep nl now st e).2 := by
  unfold remStep
  split
  · simp
  · exact removeOne_no_schedStart now st e.1 k d

theorem remStep_cache_states (nl : List (String × StreamItem)) (now : Nat)
    (st : SysState) (e : String × StreamItem) (sid : String)
    (hne : e.1 ≠ sid) :
    lookupA (remStep nl now st e).1.stream_cache sid =
      lookupA st.stream_cache sid ∧
    lookupA (remStep nl now st e).1.server_states sid =
      lookupA st.server_states sid := by
  unfold remStep
  split
  · exact ⟨rfl, rfl⟩
  · rw [removeOne_fst]
    exact ⟨lookupA_eraseA_ne _ hne, lookupA_eraseA_ne _ hne⟩

theorem remPass_sid_untouched (nl : List (String × StreamItem)) (now : Nat)
    (sid : String) :
    ∀ (xs : List (String × StreamItem)) (st : SysState),
      (∀ e ∈ xs, e.1 ≠ sid) →
      lookupA (foldSteps (remStep nl now) st xs).1.stream_cache sid =
        lookupA st.stream_cache sid ∧
      lookupA (foldSteps (remStep nl now) st xs).1.server_states sid =
        lookupA st.server_states sid ∧
      ∀ d, Action.scheduleStart sid d ∉ (foldSteps (remStep nl now) st xs).2 := by
  intro xs
  induction xs with
  | nil =>
      intro st _
      exact ⟨rfl, rfl, by simp [foldSteps]⟩
  | cons e rest ih =>
      intro st hkeys
      have hne : e.1 ≠ sid := hkeys e (List.mem_cons_self e rest)
      have hstep := remStep_cache_states nl now st e sid hne
      have hrest := ih (remStep nl now st e).1
        (fun x hx => hkeys x (List.mem_cons_of_mem e hx))
      simp only [foldSteps]
      refine ⟨by rw [hrest.1, hstep.1], by rw [hrest.2.1, hstep.2],
        fun d hmem => ?_⟩
      rcases List.mem_append.mp hmem with hm | hm
      · exact remStep_no_schedStart nl now st e sid d hm
      · exact hrest.2.2 d hm

theorem addPass_fail (prov : StreamItem → Option StreamCache) (sid : String)
    (item : StreamItem) (hprov : prov item = none) :
    ∀ (xs : List (String × StreamItem)) (st : SysState),
      (∀ v, (sid, v) ∈ xs → v = item) →
      lookupA st.api_items sid = none →
      lookupA (foldSteps (addStep prov) st xs).1.stream_cache sid =
        lookupA st.stream_cache sid ∧
      lookupA (foldSteps (addStep prov) st xs).1.server_states sid =
        lookupA st.server_states sid ∧
      ∀ d, Action.scheduleStart sid d ∉ (foldSteps (addStep prov) st xs).2 := by
  intro xs
  induction xs with
  | nil =>
      intro st _ _
      exact ⟨rfl, rfl, by simp [foldSteps]⟩
  | cons e rest ih =>
      intro st hkeys hapi
      have hkr : ∀ v, (sid, v) ∈ rest → v = item :=
        fun v hv => hkeys v (List.mem_cons_of_mem e hv)
      simp only [foldSteps]
      by_cases he : e.1 = sid
      · have he2 : e.2 = item := by
          apply hkeys e.2
          have : (sid, e.2) = e := by
            rw [← he]
          rw [this]
          exact List.mem_cons_self e rest
        have hnotsome : ¬(lookupA st.api_items e.1).isSome = true := by
          rw [he, hapi]
          simp
        have hstep : addStep prov st e = (st,
            [Action.logMsg ("NEW SERVER DETECTED: " ++ e.2.name ++
              " (ID: " ++ e.1 ++ ")"),
             Action.logMsg ("Error creating live for " ++ e.2.name ++
              " (ID: " ++ e.1 ++ ")")]) := by
          unfold addStep
          rw [if_neg hnotsome, he2, hprov]
        rw [hstep]
        have hrest := ih st hkr hapi
        refine ⟨hrest.1, hrest.2.1, fun d hmem => ?_⟩
        rcases List.mem_append.mp hmem with hm | hm
        · simp at hm
        · exact hrest.2.2 d hm
      · have hstep := addStep_pres_ne prov st e sid he
        have hapi2 : lookupA (addStep prov st e).1.api_items sid = none := by
          rw [addStep_api]
          exact hapi
        have hrest := ih (addStep prov st e).1 hkr hapi2
        refine ⟨by rw [hrest.1, hstep.1], by rw [hrest.2.1, hstep.2],
          fun d hmem => ?_⟩
        rcases List.mem_append.mp hmem with hm | hm
        · exact addStep_no_schedStart_ne prov st e sid d he hm
        · exact hrest.2.2 d hm

theorem addPass_pres_some (prov : StreamItem → Option StreamCache)
    (sid : String) (item : StreamItem) (preview : StreamCache)
    (hprov : prov item = some preview) :
    ∀ (xs : List (String × StreamItem)) (st : SysState),
      (∀ v, (sid, v) ∈ xs → v = item) →
      lookupA st.stream_cache sid = some preview →
      lookupA st.server_states sid = some ServerState.starting →
      lookupA (foldSteps (addStep prov) st xs).1.stream_cache sid =
        some preview ∧
      lookupA (foldSteps (addStep prov) st xs).1.server_states sid =
        some ServerState.starting := by
  intro xs
  induction xs with
  | nil => intro st _ hc hs; exact ⟨hc, hs⟩
  | cons e rest ih =>
      intro st hkeys hc hs
      have hkr : ∀ v, (sid, v) ∈ rest → v = item :=
        fun v hv => hkeys v (List.mem_cons_of_mem e hv)
      simp only [foldSteps]
      by_cases he : e.1 = sid
      · have he2 : e.2 = item := by
          apply hkeys e.2
          have : (sid, e.2) = e := by
            rw [← he]
          rw [this]
          exact List.mem_cons_self e rest
        have hstep : lookupA (addStep prov st e).1.stream_cache sid =
            some preview ∧
            lookupA (addStep prov st e).1.server_states sid =
              some ServerState.starting := by
          unfold addStep
          split
          · exact ⟨hc, hs⟩
          · rw [he2, hprov]
            simp only []
            rw [← he]
            exact ⟨lookupA_insertA_self _ _ _, lookupA_insertA_self _ _ _⟩
        exact ih (addStep prov st e).1 hkr hstep.1 hstep.2
      · have hstep := addStep_pres_ne prov st e sid he
        exact ih (addStep prov st e).1 hkr (by rw [hstep.1]; exact hc)
          (by rw [hstep.2]; exact hs)

theorem addPass_succ (prov : StreamItem → Option StreamCache) (sid : String)
    (item : StreamItem) (preview : StreamCache)
    (hprov : prov item = some preview) :
    ∀ (xs : List (String × StreamItem)) (st : SysState),
      (∀ v, (sid, v) ∈ xs → v = item) →
      (sid, item) ∈ xs →
      lookupA st.api_items sid = none →
      lookupA (foldSteps (addStep prov) st xs).1.stream_cache sid =
        some preview ∧
      lookupA (foldSteps (addStep prov) st xs).1.server_states sid =
        some ServerState.starting ∧
      Action.scheduleStart sid (CONFIG_newServerDelay / 1000) ∈
        (foldSteps (addStep prov) st xs).2 := by
  intro xs
  induction xs with
  | nil => intro st _ hmem _; simp at hmem
  | cons e rest ih =>
      intro st hkeys hmem hapi
      have hkr : ∀ v, (sid, v) ∈ rest → v = item :=
        fun v hv => hkeys v (List.mem_cons_of_mem e hv)
      simp only [foldSteps]
      rcases List.mem_cons.mp hmem with he | hrest
      · have he1 : e.1 = sid := by
          rw [← he]
        have he2 : e.2 = item := by
          rw [← he]
        have hnotsome : ¬(lookupA st.api_items e.1).isSome = true := by
          rw [he1, hapi]
          simp
        have hstep : addStep prov st e =
            ({ st with
                stream_cache := insertA st.stream_cache e.1 preview,
                server_states := insertA st.server_states e.1
                  ServerState.starting },
             [Action.logMsg ("NEW SERVER DETECTED: " ++ e.2.name ++
                " (ID: " ++ e.1 ++ ")"), Action.saveCache,
              Action.logMsg ("New server " ++ e.2.name ++ " (ID: " ++ e.1 ++
                ") will start in 30 seconds"),
              Action.scheduleStart e.1 (CONFIG_newServerDelay / 1000)]) := by
          unfold addStep
          rw [if_neg hnotsome, he2, hprov]
        have hlc : lookupA (addStep prov st e).1.stream_cache sid =
            some preview := by
          rw [hstep]
          show lookupA (insertA st.stream_cache e.1 preview) sid =
            some preview
          rw [he1]
          exact lookupA_insertA_self _ _ _
        have hls : lookupA (addStep prov st e).1.server_states sid =
            some ServerState.starting := by
          rw [hstep]
          show lookupA (insertA st.server_states e.1 ServerState.starting)
            sid = some ServerState.starting
          rw [he1]
          exact lookupA_insertA_self _ _ _
        have hpres := addPass_pres_some prov sid item preview hprov rest
          (addStep prov st e).1 hkr hlc hls
        refine ⟨hpres.1, hpres.2, List.mem_append.mpr (Or.inl ?_)⟩
        rw [hstep]
        simp [he1]
      · have hapi2 : lookupA (addStep prov st e).1.api_items sid = none := by
          rw [addStep_api]
          exact hapi
        have hrec := ih (addStep prov st e).1 hkr hrest hapi2
        exact ⟨hrec.1, hrec.2.1, List.mem_append.mpr (Or.inr hrec.2.2)⟩

theorem watcher_some_eq (nl : List (String × StreamItem))
    (prov : StreamItem → Option StreamCache) (now : Nat) (s : SysState) :
    watcher (some nl) prov now s =
      ({ (foldSteps (remStep nl now) (foldSteps (addStep prov) s nl).1
            (foldSteps (addStep prov) s nl).1.api_items).1 with
          api_items := nl },
       (foldSteps (addStep prov) s nl).2 ++
         (foldSteps (remStep nl now) (foldSteps (addStep prov) s nl).1
           (foldSteps (addStep prov) s nl).1.api_items).2) := rfl

/-- Counterexample to claim C5 as stated: starting from the empty tracked
state, a cycle that discovers stream `"i"` and fails to provision it still
installs `"i"` into the tracked `api_items` at the end of the cycle — the
stream is NOT left untracked, so the claim is false at this input. -/
theorem C5_counterexample :
    provFail item0 = none ∧
    lookupA (watcher (some nl0) provFail 0 sEmpty0).1.api_items "i" =
      some item0 := by
  constructor
  · rfl
  · decide

/-- Claim C5 as amended (proved): for a newly desired stream ID whose
synchronous provisioning fails during a cycle, the cycle only logs the
failure — it writes no credential-cache entry and no state entry for the
stream and schedules no start timer — but the stream nevertheless enters
the tracked list when the cycle ends (`api_items` is replaced wholesale by
the fetched list), so on the next cycle it is NOT detected as new and
provisioning is NOT retried: the new-items handler skips it as already
tracked.  If provisioning succeeds, the credential is cached, the state
becomes `starting`, and a transition to Starting is scheduled after the
new-stream delay. -/
theorem C5_amended_provisioning_failure (nl : List (String × StreamItem))
    (prov : StreamItem → Option StreamCache) (now : Nat) (s : SysState)
    (sid : String) (item : StreamItem)
    (hnd : (nl.map Prod.fst).Nodup)
    (hin : lookupA nl sid = some item)
    (hnew : lookupA s.api_items sid = none)
    (hcache : lookupA s.stream_cache sid = none)
    (hstate : lookupA s.server_states sid = none) :
    (prov item = none →
       lookupA (watcher (some nl) prov now s).1.api_items sid = some item ∧
       lookupA (watcher (some nl) prov now s).1.stream_cache sid = none ∧
       lookupA (watcher (some nl) prov now s).1.server_states sid = none ∧
       (∀ d, Action.scheduleStart sid d ∉ (watcher (some nl) prov now s).2) ∧
       addStep prov (watcher (some nl) prov now s).1 (sid, item) =
         ((watcher (some nl) prov now s).1, [])) ∧
    (∀ preview, prov item = some preview →
       lookupA (watcher (some nl) prov now s).1.stream_cache sid =
         some preview ∧
       lookupA (watcher (some nl) prov now s).1.server_states sid =
         some ServerState.starting ∧
       Action.scheduleStart sid (CONFIG_newServerDelay / 1000) ∈
         (watcher (some nl) prov now s).2) := by
  have hkeys : ∀ v, (sid, v) ∈ nl → v = item := by
    intro v hv
    have h2 := lookupA_eq_of_mem_nodup nl hnd sid v hv
    rw [hin] at h2
    exact (Option.some.inj h2).symm
  have hapiA : (foldSteps (addStep prov) s nl).1.api_items = s.api_items :=
    addPass_api prov nl s
  have hkeysRem : ∀ e ∈ (foldSteps (addStep prov) s nl).1.api_items,
      e.1 ≠ sid := by
    rw [hapiA]
    exact keys_ne_of_lookupA_none s.api_items sid hnew
  have hrem := remPass_sid_untouched nl now sid
    (foldSteps (addStep prov) s nl).1.api_items
    (foldSteps (addStep prov) s nl).1 hkeysRem
  constructor
  · intro hprov
    have hadd := addPass_fail prov sid item hprov nl s hkeys hnew
    have hc : lookupA (watcher (some nl) prov now s).1.stream_cache sid =
        none := by
      rw [watcher_some_eq]
      show lookupA (foldSteps (remStep nl now)
        (foldSteps (addStep prov) s nl).1
        (foldSteps (addStep prov) s nl).1.api_items).1.stream_cache sid =
        none
      rw [hrem.1, hadd.1, hcache]
    have hsv : lookupA (watcher (some nl) prov now s).1.server_states sid =
        none := by
      rw [watcher_some_eq]
      show lookupA (foldSteps (remStep nl now)
        (foldSteps (addStep prov) s nl).1
        (foldSteps (addStep prov) s nl).1.api_items).1.server_states sid =
        none
      rw [hrem.2.1, hadd.2.1, hstate]
    have hapi : lookupA (watcher (some nl) prov now s).1.api_items sid =
        some item := by
      rw [watcher_some_eq]
      exact hin
    refine ⟨hapi, hc, hsv, ?_, ?_⟩
    · intro d hmem
      rw [watcher_some_eq] at hmem
      rcases List.mem_append.mp hmem with hm | hm
      · exact hadd.2.2 d hm
      · exact hrem.2.2 d hm
    · unfold addStep
      rw [if_pos]
      rw [hapi]
      rfl
  · intro preview hprov
    have hmem : (sid, item) ∈ nl := mem_of_lookupA nl sid item hin
    have hadd := addPass_succ prov sid item preview hprov nl s hkeys hmem
      hnew
    refine ⟨?_, ?_, ?_⟩
    · rw [watcher_some_eq]
      show lookupA (foldSteps (remStep nl now)
        (foldSteps (addStep prov) s nl).1
        (foldSteps (addStep prov) s nl).1.api_items).1.stream_cache sid =
        some preview
      rw [hrem.1, hadd.1]
    · rw [watcher_some_eq]
      show lookupA (foldSteps (remStep nl now)
        (foldSteps (addStep prov) s nl).1
        (foldSteps (addStep prov) s nl).1.api_items).1.server_states sid =
        some ServerState.starting
      rw [hrem.2.1, hadd.2.1]
    · rw [watcher_some_eq]
      exact List.mem_append.mpr (Or.inl hadd.2.2)

/-- Witness for C5 at concrete inputs: with the always-succeeding
provisioner the new stream `"i"` is cached, marked `starting` and scheduled;
with the always-failing provisioner it stays uncached but tracked. -/
theorem C5_witness :
    ((nl0.map Prod.fst).Nodup ∧ lookupA nl0 "i" = some item0 ∧
     lookupA sEmpty0.api_items "i" = none) ∧
    lookupA (watcher (some nl0) provOk 0 sEmpty0).1.stream_cache "i" =
      some cache0 ∧
    Action.scheduleStart "i" (CONFIG_newServerDelay / 1000) ∈
      (watcher (some nl0) provOk 0 sEmpty0).2 ∧
    lookupA (watcher (some nl0) provFail 0 sEmpty0).1.stream_cache "i" =
      none :=
  ⟨⟨by decide, by decide, rfl⟩,
   ((C5_amended_provisioning_failure nl0 provOk 0 sEmpty0 "i" item0
     (by decide) (by decide) rfl rfl rfl).2 cache0 rfl).1,
   ((C5_amended_provisioning_failure nl0 provOk 0 sEmpty0 "i" item0
     (by decide) (by decide) rfl rfl rfl).2 cache0 rfl).2.2,
   ((C5_amended_provisioning_failure nl0 provFail 0 sEmpty0 "i" item0
     (by decide) (by decide) rfl rfl rfl).1 rfl).2.1⟩

end LiveOn
